import Mathlib

/-!
# Weak forms for deal.II: integration domains, symbolic integrals and linear forms

A shallow embedding of `weak_forms/symbolic_integral.h`,
`weak_forms/linear_forms.h`, `weak_forms/cell_face_subface_operators.h` and
`weak_forms/ad_sd_functor_cache.h`.

* Identifier types (`types::material_id`, `types::boundary_id`,
  `types::manifold_id`) are unsigned `w`-bit integers: values are natural
  numbers and the conversion `SubDomainType(-1)` is computed modulo `2 ^ w`.
* `std::set<SubDomainType>` is a `Finset Nat`; iteration is in increasing
  order, so `*begin()` is the least member (`Finset.min`).
* `Assert(cond, exc)` raises `exc` when `cond` is false; fallible member
  functions return `Except Exc _`.
* Template instantiation guarded by `static_assert` is a function on type
  descriptors returning `Except String CxxType`.
* Objects that are reached through references live in a `Memory`; a member
  function that changes them returns its outcome together with the memory it
  leaves, also when it raises.
-/

namespace WeakForms

/-! ## Identifier sets and the class `Integral<SubDomainType>` -/

/-- The constant `constexpr SubDomainType invalid_index = -1` for an unsigned
`w`-bit `SubDomainType`: the integer `-1` reduced modulo `2 ^ w`. -/
def invalid_index (w : Nat) : Nat :=
  ((-1 : Int) % (2 : Int) ^ w).toNat

/-- Class `Integral<SubDomainType>`, with `SubDomainType` an unsigned `w`-bit
integer type. Its only data member is `subdomains`. -/
structure Integral (w : Nat) where
  /-- Member `const std::set<SubDomainType> subdomains`. -/
  subdomains : Finset Nat

/-- Member `Integral::integrate_over_entire_domain`:
`subdomains.empty() || (subdomains.size() == 1 && *subdomains.begin() == invalid_index)`. -/
def Integral.integrate_over_entire_domain {w : Nat} (I : Integral w) : Bool :=
  decide (I.subdomains = ∅) ||
    (decide (I.subdomains.card = 1) &&
      decide (I.subdomains.min = ((invalid_index w : Nat) : WithTop Nat)))

/-- Member `Integral::integrate_on_subdomain`: true when the entire domain is
integrated over, otherwise `subdomains.find(idx) != subdomains.end()`. -/
def Integral.integrate_on_subdomain {w : Nat} (I : Integral w) (idx : Nat) : Bool :=
  if I.integrate_over_entire_domain then true
  else decide (idx ∈ I.subdomains)

/-- Member `Integral::get_subdomains`. -/
def Integral.get_subdomains {w : Nat} (I : Integral w) : Finset Nat :=
  I.subdomains

/-! ## Mesh entities seen through the accessors the wrappers call -/

/-- What `cell->face(f)` offers to the wrappers: `at_boundary()`,
`boundary_id()` and `manifold_id()`. -/
structure Face where
  at_boundary : Bool
  boundary_id : Nat
  manifold_id : Nat

/-- What a `CellIteratorType` offers to the wrappers: `cell->material_id()`
and `cell->face(f)`. -/
structure Cell where
  material_id : Nat
  face : Nat → Face

/-! ## The three integration domains -/

/-- Class `VolumeIntegral : public Integral<dealii::types::material_id>`. -/
structure VolumeIntegral (w : Nat) extends Integral w

/-- Class `BoundaryIntegral : public Integral<dealii::types::boundary_id>`. -/
structure BoundaryIntegral (w : Nat) extends Integral w

/-- Class `InterfaceIntegral : public Integral<dealii::types::manifold_id>`. -/
structure InterfaceIntegral (w : Nat) extends Integral w

/-- Member `VolumeIntegral::integrate_on_cell`:
`integrate_on_subdomain(cell->material_id())`. -/
def VolumeIntegral.integrate_on_cell {w : Nat} (V : VolumeIntegral w) (cell : Cell) : Bool :=
  V.toIntegral.integrate_on_subdomain cell.material_id

/-- Member `BoundaryIntegral::integrate_on_face`: false for a face that is not
at the boundary, otherwise `integrate_on_subdomain(cell->face(face)->boundary_id())`. -/
def BoundaryIntegral.integrate_on_face {w : Nat} (B : BoundaryIntegral w)
    (cell : Cell) (face : Nat) : Bool :=
  if !(cell.face face).at_boundary then false
  else B.toIntegral.integrate_on_subdomain (cell.face face).boundary_id

/-- Member `InterfaceIntegral::integrate_on_face`: `neighbour_face` is unused;
false for a face at the boundary, otherwise
`integrate_on_subdomain(cell->face(face)->manifold_id())`. -/
def InterfaceIntegral.integrate_on_face {w : Nat} (N : InterfaceIntegral w)
    (cell : Cell) (face : Nat) (_neighbour_face : Nat) : Bool :=
  if (cell.face face).at_boundary then false
  else N.toIntegral.integrate_on_subdomain (cell.face face).manifold_id

/-! ## Update flags, exceptions and evaluation contexts -/

/-- The bit set `dealii::UpdateFlags`; `operator|` is bitwise or. -/
abbrev UpdateFlags := Nat

/-- Exceptions raised by the assertions of the translated headers. -/
inductive Exc where
  | ExcIndexRange (index lower upper : Nat)
  | ExcNotCastableToFEFaceValuesBase
  | ExcNameHasBeenFound (name : String)
  | ExcNameNotFound (name : String)
  | ExcTypeMismatch (name : String)
  deriving DecidableEq, Repr

/-- Modelled from the spec: the macro `Assert(cond, exc)` of the finite-element
library is a fatal check, it raises `exc` when `cond` does not hold. -/
def Assert (cond : Bool) (exc : Exc) : Except Exc Unit :=
  if cond then .ok () else .error exc

/-- Interface a template argument `FEValuesType` has to offer to the
single-entry call operator: `n_quadrature_points` and `JxW(q_point)`. -/
class FEValuesType (F : Type) (α : outParam Type) where
  n_quadrature_points : F → Nat
  JxW : F → Nat → α

/-- The part of `FEValuesBase<dim, spacedim>` the symbolic integral reads. -/
structure FEValuesBase (α : Type) where
  n_quadrature_points : Nat
  JxW : Nat → α

/-- The part of `FEInterfaceValues<dim, spacedim>` the symbolic integral reads. -/
structure FEInterfaceValues (α : Type) where
  n_quadrature_points : Nat
  JxW : Nat → α

instance instFEValuesTypeBase (α : Type) : FEValuesType (FEValuesBase α) α where
  n_quadrature_points := fun fe => fe.n_quadrature_points
  JxW := fun fe q => fe.JxW q

instance instFEValuesTypeInterface (α : Type) : FEValuesType (FEInterfaceValues α) α where
  n_quadrature_points := fun fe => fe.n_quadrature_points
  JxW := fun fe q => fe.JxW q

/-- The type `types::vectorized_qp_range_t`, used through `size()` and
`operator[]` only. -/
structure vectorized_qp_range_t where
  size : Nat
  get : Nat → Nat

/-- The range `q_point_range(first, last)` of the tests: the indices
`first, first + 1, ..., last - 1`. -/
def q_point_range (first last : Nat) : vectorized_qp_range_t :=
  { size := last - first, get := fun i => first + i }

/-- A vectorized value with `width` lanes. -/
abbrev VectorizedValue (α : Type) (width : Nat) := Fin width → α

/-- Modelled from the spec: `numbers::set_vectorized_values(out, i, v)` of
`numbers.h` writes `v` to lane `i` of `out` and leaves the other lanes. -/
def set_vectorized_values {α : Type} {width : Nat} (out : VectorizedValue α width)
    (i : Nat) (v : α) : VectorizedValue α width :=
  fun j => if j.val = i then v else out j

/-! ## The symbolic integral `SymbolicOp<IntegralType, value, ScalarType, IntegrandType>` -/

/-- Interface a template argument `IntegrandType` has to offer:
`get_update_flags()`. -/
class HasUpdateFlags (T : Type) where
  get_update_flags : T → UpdateFlags

/-- Interface a template argument `IntegralType` has to offer:
`integrate_over_entire_domain()`. -/
class IntegrationDomain (T : Type) where
  integrate_over_entire_domain : T → Bool

instance instDomainVolume (w : Nat) : IntegrationDomain (VolumeIntegral w) where
  integrate_over_entire_domain := fun V => V.toIntegral.integrate_over_entire_domain

instance instDomainBoundary (w : Nat) : IntegrationDomain (BoundaryIntegral w) where
  integrate_over_entire_domain := fun B => B.toIntegral.integrate_over_entire_domain

instance instDomainInterface (w : Nat) : IntegrationDomain (InterfaceIntegral w) where
  integrate_over_entire_domain := fun N => N.toIntegral.integrate_over_entire_domain

namespace Operators

/-- Data members of the specialisation
`SymbolicOp<IntegralType_, SymbolicOpCodes::value, ScalarType_, IntegrandType_>`. -/
structure SymbolicOp (IntegralType IntegrandType : Type) where
  integral_operation : IntegralType
  integrand : IntegrandType

variable {IntegralType IntegrandType : Type}

/-- Member `get_integral_operation`. -/
def SymbolicOp.get_integral_operation (op : SymbolicOp IntegralType IntegrandType) :
    IntegralType :=
  op.integral_operation

/-- Member `get_integrand`. -/
def SymbolicOp.get_integrand (op : SymbolicOp IntegralType IntegrandType) : IntegrandType :=
  op.integrand

/-- Member `integrate_over_entire_domain` of the symbolic integral. -/
def SymbolicOp.integrate_over_entire_domain [IntegrationDomain IntegralType]
    (op : SymbolicOp IntegralType IntegrandType) : Bool :=
  IntegrationDomain.integrate_over_entire_domain op.integral_operation

/-- Member `get_update_flags`:
`get_integrand().get_update_flags() | UpdateFlags::update_JxW_values`.
The enumerator `update_JxW_values` of the finite-element library is a
parameter. -/
def SymbolicOp.get_update_flags [HasUpdateFlags IntegrandType]
    (update_JxW_values : UpdateFlags) (op : SymbolicOp IntegralType IntegrandType) :
    UpdateFlags :=
  HasUpdateFlags.get_update_flags op.get_integrand ||| update_JxW_values

/-- The private call operator returning a single entry:
`Assert(q_point < fe_values.n_quadrature_points, ExcIndexRange(...))`
followed by `return fe_values.JxW(q_point)`. -/
def SymbolicOp.operator_call_single {F α : Type} [FEValuesType F α]
    (_op : SymbolicOp IntegralType IntegrandType) (fe_values : F) (q_point : Nat) :
    Except Exc α := do
  Assert (decide (q_point < FEValuesType.n_quadrature_points fe_values))
    (Exc.ExcIndexRange q_point 0 (FEValuesType.n_quadrature_points fe_values))
  return FEValuesType.JxW fe_values q_point

/-- One pass of the body of the loop `for (i = 0; i < q_point_range.size(); ++i)`
of the vectorized call operators. -/
def SymbolicOp.vectorized_loop_body {F α : Type} [FEValuesType F α] {width : Nat}
    (op : SymbolicOp IntegralType IntegrandType) (fe_values : F)
    (q_point_range : vectorized_qp_range_t)
    (out : VectorizedValue α width) (i : Nat) : Except Exc (VectorizedValue α width) :=
  if q_point_range.get i < FEValuesType.n_quadrature_points fe_values then do
    let v ← op.operator_call_single fe_values (q_point_range.get i)
    return set_vectorized_values out i v
  else
    return out

/-- The vectorized call operator on `FEValuesBase`. The local `out` is created
by its default constructor; `fresh` is what its lanes hold at that moment. -/
def SymbolicOp.operator_call_vectorized {α : Type} (width : Nat)
    (op : SymbolicOp IntegralType IntegrandType) (fe_values : FEValuesBase α)
    (q_point_range : vectorized_qp_range_t) (fresh : VectorizedValue α width) :
    Except Exc (VectorizedValue α width) := do
  let out := fresh
  Assert (decide (q_point_range.size ≤ width)) (Exc.ExcIndexRange q_point_range.size 0 width)
  (List.range q_point_range.size).foldlM
    (fun acc i => op.vectorized_loop_body fe_values q_point_range acc i) out

/-- The vectorized call operator on `FEInterfaceValues`. -/
def SymbolicOp.operator_call_vectorized_interface {α : Type} (width : Nat)
    (op : SymbolicOp IntegralType IntegrandType) (fe_interface_values : FEInterfaceValues α)
    (q_point_range : vectorized_qp_range_t) (fresh : VectorizedValue α width) :
    Except Exc (VectorizedValue α width) := do
  let out := fresh
  Assert (decide (q_point_range.size ≤ width)) (Exc.ExcIndexRange q_point_range.size 0 width)
  (List.range q_point_range.size).foldlM
    (fun acc i => op.vectorized_loop_body fe_interface_values q_point_range acc i) out

/-- Lanes after the loop has run over the first `n` entries of the range: a
lane below `n` whose quadrature index is in range holds the weight of that
index, every other lane holds what it held at creation. -/
def lanes_after {F α : Type} [FEValuesType F α] {width : Nat} (fe_values : F)
    (q_point_range : vectorized_qp_range_t) (fresh : VectorizedValue α width) (n : Nat) :
    VectorizedValue α width :=
  fun j =>
    if j.val < n ∧ q_point_range.get j.val < FEValuesType.n_quadrature_points fe_values then
      FEValuesType.JxW fe_values (q_point_range.get j.val)
    else fresh j

end Operators

/-! ## Type-level checks: type traits and `static_assert` -/

/-- The enumeration `Operators::SymbolicOpCodes`; only `value` is named by the
translated headers. -/
inductive SymbolicOpCodes where
  | value
  | other (code : Nat)
  deriving DecidableEq, Repr

/-- Descriptors of the C++ types the traits are asked about. `SymbolicOp` is an
instantiation of `Operators::SymbolicOp` with four template arguments; every
type the translated headers do not name is `other`. -/
inductive CxxType where
  | VolumeIntegral
  | BoundaryIntegral
  | InterfaceIntegral
  | SymbolicOp (Op : CxxType) (OpCode : SymbolicOpCodes) (ScalarType Integrand : CxxType)
  | LinearForm (TestSpaceOp Functor : CxxType)
  | other (name : String)
  deriving DecidableEq, Repr

/-- Traits declared in `type_traits.h` whose value the translated headers do not
fix; they are parameters of the checks. `is_integral_op_elsewhere T` is the
value of `is_integral_op<T>` given by the primary template and by the
specialisations of other headers. -/
structure TypeTraits where
  is_or_has_test_function_op : CxxType → Bool
  is_valid_form_functor : CxxType → Bool
  is_integral_op_elsewhere : CxxType → Bool

/-- Trait `is_volume_integral_op`: true for
`SymbolicOp<VolumeIntegral, OpCode, ScalarType, Integrand>`; the primary
template is `std::false_type`. -/
def is_volume_integral_op : CxxType → Bool
  | .SymbolicOp .VolumeIntegral _ _ _ => true
  | _ => false

/-- Trait `is_boundary_integral_op`: true for
`SymbolicOp<BoundaryIntegral, OpCode, ScalarType, Integrand>`. -/
def is_boundary_integral_op : CxxType → Bool
  | .SymbolicOp .BoundaryIntegral _ _ _ => true
  | _ => false

/-- Trait `is_interface_integral_op`: true for
`SymbolicOp<InterfaceIntegral, OpCode, ScalarType, Integrand>`. -/
def is_interface_integral_op : CxxType → Bool
  | .SymbolicOp .InterfaceIntegral _ _ _ => true
  | _ => false

/-- Trait `is_symbolic_integral_op<T>`: enabled when one of the three traits
above holds. -/
def is_symbolic_integral_op (T : CxxType) : Bool :=
  is_volume_integral_op T || is_boundary_integral_op T || is_interface_integral_op T

/-- Trait `is_integral_op<T>`: the specialisation of `symbolic_integral.h` makes
it true for every symbolic integral. -/
def is_integral_op (tr : TypeTraits) (T : CxxType) : Bool :=
  if is_symbolic_integral_op T then true else tr.is_integral_op_elsewhere T

/-- Trait `is_valid_integration_domain`: true for the three wrappers. -/
def is_valid_integration_domain : CxxType → Bool
  | .VolumeIntegral => true
  | .BoundaryIntegral => true
  | .InterfaceIntegral => true
  | _ => false

/-- Instantiating `SymbolicOp<IntegralType_, SymbolicOpCodes::value, ScalarType_,
IntegrandType_>`: the class body opens with
`static_assert(!is_integral_op<IntegrandType_>::value, "Cannot integrate an integral!")`. -/
def SymbolicOp_instantiate (tr : TypeTraits) (IntegralType ScalarType IntegrandType : CxxType) :
    Except String CxxType :=
  if !(!is_integral_op tr IntegrandType) then
    .error "Cannot integrate an integral!"
  else
    .ok (.SymbolicOp IntegralType .value ScalarType IntegrandType)

/-- Instantiating `LinearForm<TestSpaceOp_, Functor_>`: the three
`static_assert`s of the class body, in their order. -/
def LinearForm_instantiate (tr : TypeTraits) (TestSpaceOp Functor : CxxType) :
    Except String CxxType :=
  if !(tr.is_or_has_test_function_op TestSpaceOp) then
    .error "Expected a test function."
  else if !(tr.is_valid_form_functor Functor) then
    .error "Expected the functor to a linear form to either be a SymbolicOp, or that the unary or binary operation does not include a test function or trial solution as a lead operation."
  else if !(!is_symbolic_integral_op Functor) then
    .error "Functor cannot be an integral."
  else
    .ok (.LinearForm TestSpaceOp Functor)

/-! ## Linear forms: the class `LinearForm<TestSpaceOp_, Functor_>` -/

/-- Data members of `LinearForm<TestSpaceOp_, Functor_>`. -/
structure LinearForm (TestSpaceOp Functor : Type) where
  test_space_op : TestSpaceOp
  functor_op : Functor

/-- Member `LinearForm::get_test_space_operation`. -/
def LinearForm.get_test_space_operation {TestSpaceOp Functor : Type}
    (form : LinearForm TestSpaceOp Functor) : TestSpaceOp :=
  form.test_space_op

/-- Member `LinearForm::get_functor`. -/
def LinearForm.get_functor {TestSpaceOp Functor : Type}
    (form : LinearForm TestSpaceOp Functor) : Functor :=
  form.functor_op

/-- Member `LinearForm::get_update_flags`:
`test_space_op.get_update_flags() | functor_op.get_update_flags()`. -/
def LinearForm.get_update_flags {TestSpaceOp Functor : Type}
    [HasUpdateFlags TestSpaceOp] [HasUpdateFlags Functor]
    (form : LinearForm TestSpaceOp Functor) : UpdateFlags :=
  HasUpdateFlags.get_update_flags form.test_space_op |||
    HasUpdateFlags.get_update_flags form.functor_op

/-! ## The normal operand of `cell_face_subface_operators.h` -/

/-- Class `Normal<dim, spacedim>`; it has no data member. -/
structure Normal (dim spacedim : Nat) where
  deriving DecidableEq, Repr

/-- Constant `Normal::rank`. -/
def Normal.rank {dim spacedim : Nat} (_operand : Normal dim spacedim) : Nat := 1

namespace Operators

/-- Data member of the specialisation
`SymbolicOp<Normal<dim, spacedim>, SymbolicOpCodes::value>`. -/
structure SymbolicOpNormal (dim spacedim : Nat) where
  operand : Normal dim spacedim

/-- Member `get_update_flags` of the value operation of `Normal`:
`return UpdateFlags::update_normal_vectors`. The enumerator
`update_normal_vectors` of the finite-element library is a parameter. -/
def SymbolicOpNormal.get_update_flags {dim spacedim : Nat}
    (update_normal_vectors : UpdateFlags) (_op : SymbolicOpNormal dim spacedim) :
    UpdateFlags :=
  update_normal_vectors

end Operators

/-- The function `value(const Normal<dim, spacedim> &operand)`, also reached
through `Normal::value()` and `Normal::operator()()`. -/
def Normal.value {dim spacedim : Nat} (operand : Normal dim spacedim) :
    Operators.SymbolicOpNormal dim spacedim :=
  { operand := operand }

/-! ## The general data storage and the functor cache `AD_SD_Functor_Cache`

The objects live in a memory: every `MeshWorker::ScratchData` object owns one
`GeneralDataStorage` (returned by `get_general_data_storage()`), every
`AD_SD_Functor_Cache` object owns its members. A reference to a
`GeneralDataStorage` names the object it designates. -/

/-- Identity of a `MeshWorker::ScratchData` object. -/
abbrev ScratchId := Nat

/-- Identity of an `AD_SD_Functor_Cache` object; a pointer
`const AD_SD_Functor_Cache *` is an `Option CacheId`, `nullptr` being `none`. -/
abbrev CacheId := Nat

/-- A reference `GeneralDataStorage &`: the storage of a scratch data object, or
the member `cache` of a functor cache object. -/
inductive StorageRef where
  | of_scratch_data (scratch_data : ScratchId)
  | of_functor_cache (ad_sd_functor_cache : CacheId)
  deriving DecidableEq, Repr

/-- What an entry of a `GeneralDataStorage` holds: a copy of a `bool`, a pointer
to a `GeneralDataStorage`, or an object of another type. -/
inductive AnyEntry where
  | bool_copy (value : Bool)
  | storage_reference (target : StorageRef)
  | other (type_name : String)
  deriving DecidableEq, Repr

/-- Modelled from the spec: the general data storage of the finite-element
library is a mutable key-value store; `any_data` maps the names that are stored
to their entries. -/
structure GeneralDataStorage where
  any_data : String → Option AnyEntry

/-- A default-constructed storage: no name is stored. -/
def GeneralDataStorage.empty : GeneralDataStorage :=
  { any_data := fun _ => none }

/-- Member `GeneralDataStorage::stores_object_with_name`. -/
def GeneralDataStorage.stores_object_with_name (g : GeneralDataStorage) (name : String) :
    Bool :=
  (g.any_data name).isSome

/-- Writing the entry of one name, `any_data[name] = entry`; what the members
`add_or_overwrite_copy` and `add_or_overwrite_reference` do. -/
def GeneralDataStorage.add_or_overwrite (g : GeneralDataStorage) (name : String)
    (entry : AnyEntry) : GeneralDataStorage :=
  { any_data := fun n => if n = name then some entry else g.any_data n }

/-- Member `GeneralDataStorage::add_unique_reference<GeneralDataStorage>`: the
library refuses a name that is already stored with `ExcNameHasBeenFound(name)`,
otherwise it stores a pointer to the object. -/
def GeneralDataStorage.add_unique_reference (g : GeneralDataStorage) (name : String)
    (target : StorageRef) : Except Exc GeneralDataStorage :=
  if g.stores_object_with_name name then .error (Exc.ExcNameHasBeenFound name)
  else .ok (g.add_or_overwrite name (.storage_reference target))

/-- Member `GeneralDataStorage::add_unique_copy<bool>`: the library refuses a
name that is already stored with `ExcNameHasBeenFound(name)`, otherwise it
stores a copy of the value. -/
def GeneralDataStorage.add_unique_copy (g : GeneralDataStorage) (name : String)
    (value : Bool) : Except Exc GeneralDataStorage :=
  if g.stores_object_with_name name then .error (Exc.ExcNameHasBeenFound name)
  else .ok (g.add_or_overwrite name (.bool_copy value))

/-- Member `GeneralDataStorage::get_object_with_name<GeneralDataStorage>`:
`ExcNameNotFound(name)` when the name is not stored, the object pointed to when
the entry is a pointer to a `GeneralDataStorage`, `ExcTypeMismatch` for an
entry of another type. -/
def GeneralDataStorage.get_object_with_name (g : GeneralDataStorage) (name : String) :
    Except Exc StorageRef :=
  match g.any_data name with
  | none => .error (Exc.ExcNameNotFound name)
  | some (.storage_reference target) => .ok target
  | some _ => .error (Exc.ExcTypeMismatch name)

/-- Data members of `AD_SD_Functor_Cache`. -/
structure AD_SD_Functor_Cache where
  n_source_caches : Nat
  source_lock : List Bool
  source_cache : List GeneralDataStorage
  cache : GeneralDataStorage

/-- Constructor `AD_SD_Functor_Cache(const unsigned int queue_length)`:
`n_source_caches(queue_length)`, `source_lock(n_source_caches, false)`,
`source_cache(n_source_caches)`; the member `cache` is default-constructed. -/
def AD_SD_Functor_Cache.construct (queue_length : Nat) : AD_SD_Functor_Cache :=
  { n_source_caches := queue_length
    source_lock := List.replicate queue_length false
    source_cache := List.replicate queue_length GeneralDataStorage.empty
    cache := GeneralDataStorage.empty }

/-- The constructor called without an argument: the default argument is
`2 * MultithreadInfo::n_threads()`, computed in `unsigned int` of `w` bits;
the number of threads is a parameter. -/
def AD_SD_Functor_Cache.construct_default (w n_threads : Nat) : AD_SD_Functor_Cache :=
  AD_SD_Functor_Cache.construct ((2 * n_threads) % 2 ^ w)

/-- Member `AD_SD_Functor_Cache::queue_length`: `return n_source_caches`. -/
def AD_SD_Functor_Cache.queue_length (self : AD_SD_Functor_Cache) : Nat :=
  self.n_source_caches

/-- The objects in memory: the general data storage of every scratch data
object and every functor cache object. -/
structure Memory where
  scratch_data : ScratchId → GeneralDataStorage
  functor_cache : CacheId → AD_SD_Functor_Cache

/-- Reading through a reference. -/
def Memory.storage (m : Memory) : StorageRef → GeneralDataStorage
  | .of_scratch_data s => m.scratch_data s
  | .of_functor_cache c => (m.functor_cache c).cache

/-- Writing through a reference: the designated storage becomes `g`, every
other object and every other member is left. -/
def Memory.set_storage (m : Memory) (r : StorageRef) (g : GeneralDataStorage) : Memory :=
  match r with
  | .of_scratch_data s =>
    { m with scratch_data := fun i => if i = s then g else m.scratch_data i }
  | .of_functor_cache c =>
    { m with functor_cache := fun i =>
        if i = c then { m.functor_cache c with cache := g } else m.functor_cache i }

/-- Putting an entry into the storage a reference designates. -/
def Memory.put (m : Memory) (r : StorageRef) (name : String) (entry : AnyEntry) : Memory :=
  m.set_storage r ((m.storage r).add_or_overwrite name entry)

/-- Static member `get_name_ad_sd_cache`:
`Operators::internal::get_deal_II_prefix() + "AD_SD_Functor_Cache"`; the prefix
comes from `ad_sd_functor_internal.h` and is a parameter. -/
def AD_SD_Functor_Cache.get_name_ad_sd_cache (prefix_deal_II : String) : String :=
  prefix_deal_II ++ "AD_SD_Functor_Cache"

/-- Static member `get_name_ad_sd_cache_flag`: `get_name_ad_sd_cache() + "_Flag"`. -/
def AD_SD_Functor_Cache.get_name_ad_sd_cache_flag (prefix_deal_II : String) : String :=
  AD_SD_Functor_Cache.get_name_ad_sd_cache prefix_deal_II ++ "_Flag"

/-- Static member `has_user_cache`:
`scratch_cache.stores_object_with_name(get_name_ad_sd_cache_flag())`. -/
def AD_SD_Functor_Cache.has_user_cache (prefix_deal_II : String) (m : Memory)
    (scratch_data : ScratchId) : Bool :=
  (m.scratch_data scratch_data).stores_object_with_name
    (AD_SD_Functor_Cache.get_name_ad_sd_cache_flag prefix_deal_II)

/-- Static member `AD_SD_Functor_Cache::initialize(scratch_data,
ad_sd_functor_cache)`: it returns at once for `nullptr`; otherwise it adds to the
storage of the scratch data a unique reference to the member `cache` under the
cache name, then a unique copy of `true` under the flag name. The result is the
outcome of the call and the memory it leaves. -/
def AD_SD_Functor_Cache.initialize (prefix_deal_II : String) (m : Memory)
    (scratch_data : ScratchId) (ad_sd_functor_cache : Option CacheId) :
    Except Exc Unit × Memory :=
  match ad_sd_functor_cache with
  | none => (.ok (), m)
  | some c =>
    let scratch_cache := m.scratch_data scratch_data
    match scratch_cache.add_unique_reference
        (AD_SD_Functor_Cache.get_name_ad_sd_cache prefix_deal_II)
        (.of_functor_cache c) with
    | .error e => (.error e, m)
    | .ok scratch_cache1 =>
      let m1 := m.set_storage (.of_scratch_data scratch_data) scratch_cache1
      match scratch_cache1.add_unique_copy
          (AD_SD_Functor_Cache.get_name_ad_sd_cache_flag prefix_deal_II) true with
      | .error e => (.error e, m1)
      | .ok scratch_cache2 =>
        (.ok (), m1.set_storage (.of_scratch_data scratch_data) scratch_cache2)

/-- Static member `get_cache` (both overloads have this body): with a user
cache, the object stored under the cache name in the storage of the scratch
data; otherwise the storage of the scratch data itself. -/
def AD_SD_Functor_Cache.get_cache (prefix_deal_II : String) (m : Memory)
    (scratch_data : ScratchId) : Except Exc StorageRef :=
  if AD_SD_Functor_Cache.has_user_cache prefix_deal_II m scratch_data then
    (m.scratch_data scratch_data).get_object_with_name
      (AD_SD_Functor_Cache.get_name_ad_sd_cache prefix_deal_II)
  else
    .ok (.of_scratch_data scratch_data)

/-- Static member `get_destination_cache` (both overloads):
`return scratch_data.get_general_data_storage()`. -/
def AD_SD_Functor_Cache.get_destination_cache (_m : Memory) (scratch_data : ScratchId) :
    StorageRef :=
  .of_scratch_data scratch_data

/-! ## Unary operators on symbolic operands

The headers `symbolic_operators.h` and `unary_operators.h` are not among the
translated sources; the tests `unary_operators_01.cc` and
`unary_operators_03_vec.cc` call them. The definitions of this section follow
the specification of operand and operator composition. -/

/-- Modelled from the spec: the sign, exponent and significand fields of a
`double`; the missing part is the number type of the finite-element library.
Negation changes the sign field and nothing else. -/
structure Binary64 where
  sign : Bool
  exponent : Nat
  significand : Nat
  deriving DecidableEq, Repr

/-- Modelled from the spec: negation of a `double`. -/
def Binary64.neg (x : Binary64) : Binary64 :=
  { x with sign := !x.sign }

instance instInvolutiveNegBinary64 : InvolutiveNeg Binary64 where
  neg := Binary64.neg
  neg_neg := fun x => by cases x; simp [Binary64.neg]

/-- The value `2.0`: positive sign, biased exponent `1024`, significand `0`. -/
def Binary64.two : Binary64 :=
  { sign := false, exponent := 1024, significand := 0 }

/-- Modelled from the spec: a rank-2 tensor of dimension `dim`, the value kind
of a rank-2 operand; the missing part is the tensor class of the
finite-element library. -/
structure Tensor2 (dim : Nat) (α : Type) where
  component : Fin dim → Fin dim → α

/-- Modelled from the spec: the transpose of the underlying tensor algebra. -/
def Tensor2.transpose {dim : Nat} {α : Type} (t : Tensor2 dim α) : Tensor2 dim α :=
  { component := fun i j => t.component j i }

/-- Modelled from the spec: the symmetric part `(X + X^T) / 2` of the
underlying tensor algebra. -/
def Tensor2.symmetrize {dim : Nat} {α : Type} [Add α] [Div α] [OfNat α 2]
    (t : Tensor2 dim α) : Tensor2 dim α :=
  { component := fun i j => (t.component i j + t.component j i) / 2 }

/-- Modelled from the spec: negation of a tensor, component by component. -/
def Tensor2.neg {dim : Nat} {α : Type} [Neg α] (t : Tensor2 dim α) : Tensor2 dim α :=
  { component := fun i j => - t.component i j }

instance instInvolutiveNegTensor2 (dim : Nat) (α : Type) [InvolutiveNeg α] :
    InvolutiveNeg (Tensor2 dim α) where
  neg := Tensor2.neg
  neg_neg := fun t => by
    cases t
    simp [Tensor2.neg]

/-- Modelled from the spec: the rank of a value kind, part of the algebraic
signature every operand exposes. -/
class ValueRank (V : Type) where
  rank : Nat

instance instValueRankBinary64 : ValueRank Binary64 where
  rank := 0

instance instValueRankTensor2 (dim : Nat) (α : Type) : ValueRank (Tensor2 dim α) where
  rank := 2

/-- Modelled from the spec: the contract of an operand or operator node of
`symbolic_operators.h` and `unary_operators.h`. Given the evaluation context it
returns one value at one quadrature point, or for every degree of freedom a
vectorized batch across `width` quadrature points. -/
structure SymbolicNode (Context V : Type) where
  evaluate : Context → Nat → V
  evaluate_vectorized : (width : Nat) → Context → vectorized_qp_range_t → Nat →
    VectorizedValue V width

/-- Modelled from the spec: the rank of a node is the rank of its value kind,
fixed when the expression is built. -/
def SymbolicNode.rank {Context V : Type} [ValueRank V] (_f : SymbolicNode Context V) : Nat :=
  ValueRank.rank V

/-- Modelled from the spec: a functor operand that returns the same value at
every quadrature point, as `value<double, dim, spacedim>(c1, ...)` with a
function returning `2.0` in the test. -/
def constant_functor {Context V : Type} (v : V) : SymbolicNode Context V :=
  { evaluate := fun _ _ => v
    evaluate_vectorized := fun _ _ _ _ _ => v }

/-- Modelled from the spec: the unary operator negate, written `-f`; it wraps
its operand and evaluates to the negated value of the operand, at a quadrature
point and in every lane of a batch. -/
def negate {Context V : Type} [Neg V] (f : SymbolicNode Context V) : SymbolicNode Context V :=
  { evaluate := fun c q => - f.evaluate c q
    evaluate_vectorized := fun width c r dof lane => - f.evaluate_vectorized width c r dof lane }

/-- Modelled from the spec: the unary operator transpose; it is legal on rank-2
operands and evaluates to the transpose of the value of its operand. -/
def transpose {Context : Type} {dim : Nat} {α : Type}
    (X : SymbolicNode Context (Tensor2 dim α)) : SymbolicNode Context (Tensor2 dim α) :=
  { evaluate := fun c q => (X.evaluate c q).transpose
    evaluate_vectorized := fun width c r dof lane =>
      (X.evaluate_vectorized width c r dof lane).transpose }

/-- Modelled from the spec: the unary operator symmetrize; it is legal on rank-2
operands and evaluates to the symmetric part of the value of its operand. -/
def symmetrize {Context : Type} {dim : Nat} {α : Type} [Add α] [Div α] [OfNat α 2]
    (X : SymbolicNode Context (Tensor2 dim α)) : SymbolicNode Context (Tensor2 dim α) :=
  { evaluate := fun c q => (X.evaluate c q).symmetrize
    evaluate_vectorized := fun width c r dof lane =>
      (X.evaluate_vectorized width c r dof lane).symmetrize }

/-! ## Building symbolic integrals: `integrate`, `dV`, `dA`, `dI` -/

/-- Constructor `VolumeIntegral(const std::set<subdomain_t> &subregions)`. -/
def VolumeIntegral.construct (w : Nat) (subregions : Finset Nat) : VolumeIntegral w :=
  { subdomains := subregions }

/-- Constructor `VolumeIntegral()`, which delegates to
`VolumeIntegral(std::set<subdomain_t>{})`. -/
def VolumeIntegral.construct_default (w : Nat) : VolumeIntegral w :=
  VolumeIntegral.construct w ∅

/-- Constructor `BoundaryIntegral(const std::set<subdomain_t> &boundaries)`. -/
def BoundaryIntegral.construct (w : Nat) (boundaries : Finset Nat) : BoundaryIntegral w :=
  { subdomains := boundaries }

/-- Constructor `BoundaryIntegral()`, which delegates to
`BoundaryIntegral(std::set<subdomain_t>{})`. -/
def BoundaryIntegral.construct_default (w : Nat) : BoundaryIntegral w :=
  BoundaryIntegral.construct w ∅

/-- Constructor `InterfaceIntegral(const std::set<subdomain_t> interfaces)`. -/
def InterfaceIntegral.construct (w : Nat) (interfaces : Finset Nat) : InterfaceIntegral w :=
  { subdomains := interfaces }

/-- Constructor `InterfaceIntegral()`, which delegates to
`InterfaceIntegral(std::set<subdomain_t>{})`. -/
def InterfaceIntegral.construct_default (w : Nat) : InterfaceIntegral w :=
  InterfaceIntegral.construct w ∅

/-- Member `VolumeIntegral::integrate`: `const auto &operand = *this;`
`return OpType(operand, integrand);`. -/
def VolumeIntegral.integrate {w : Nat} {Integrand : Type} (self : VolumeIntegral w)
    (integrand : Integrand) : Operators.SymbolicOp (VolumeIntegral w) Integrand :=
  let operand := self
  { integral_operation := operand, integrand := integrand }

/-- Member `BoundaryIntegral::integrate`. -/
def BoundaryIntegral.integrate {w : Nat} {Integrand : Type} (self : BoundaryIntegral w)
    (integrand : Integrand) : Operators.SymbolicOp (BoundaryIntegral w) Integrand :=
  let operand := self
  { integral_operation := operand, integrand := integrand }

/-- Member `InterfaceIntegral::integrate`. -/
def InterfaceIntegral.integrate {w : Nat} {Integrand : Type} (self : InterfaceIntegral w)
    (integrand : Integrand) : Operators.SymbolicOp (InterfaceIntegral w) Integrand :=
  let operand := self
  { integral_operation := operand, integrand := integrand }

/-- The types `IntegralType` for which `is_valid_integration_domain` is true,
with the member `integrate` the free function calls. -/
class ValidIntegrationDomain (IntegralType : Type) where
  integrate : {Integrand : Type} → IntegralType → Integrand →
    Operators.SymbolicOp IntegralType Integrand

instance instValidDomainVolume (w : Nat) : ValidIntegrationDomain (VolumeIntegral w) where
  integrate := fun self integrand => self.integrate integrand

instance instValidDomainBoundary (w : Nat) : ValidIntegrationDomain (BoundaryIntegral w) where
  integrate := fun self integrand => self.integrate integrand

instance instValidDomainInterface (w : Nat) : ValidIntegrationDomain (InterfaceIntegral w) where
  integrate := fun self integrand => self.integrate integrand

/-- The free function `integrate(integrand, integral)`, enabled for the valid
integration domains: `return integral.template integrate<ScalarType>(integrand)`. -/
def integrate {Integrand IntegralType : Type} [ValidIntegrationDomain IntegralType]
    (integrand : Integrand) (integral : IntegralType) :
    Operators.SymbolicOp IntegralType Integrand :=
  ValidIntegrationDomain.integrate integral integrand

/-- The type of `integrate<ScalarType>(integrand, integral)`: the overload is
enabled when `is_valid_integration_domain<IntegralType>` holds, and its return
type `SymbolicOp<IntegralType, value, ScalarType, Integrand>` is instantiated. -/
def integrate_instantiate (tr : TypeTraits) (ScalarType Integrand IntegralType : CxxType) :
    Except String CxxType :=
  if is_valid_integration_domain IntegralType then
    SymbolicOp_instantiate tr IntegralType ScalarType Integrand
  else
    .error "no matching function for call to integrate"

/-- Member `LinearForm::dV(const std::set<subdomain_t> &subdomains)`:
`VolumeIntegral(subdomains).template integrate<ScalarType>(*this)`. -/
def LinearForm.dV_subdomains {TestSpaceOp Functor : Type} (w : Nat)
    (form : LinearForm TestSpaceOp Functor) (subdomains : Finset Nat) :
    Operators.SymbolicOp (VolumeIntegral w) (LinearForm TestSpaceOp Functor) :=
  (VolumeIntegral.construct w subdomains).integrate form

/-- Member `LinearForm::dV(const subdomain_t subdomain)`:
`dV<ScalarType>(std::set<subdomain_t>{subdomain})`. -/
def LinearForm.dV_subdomain {TestSpaceOp Functor : Type} (w : Nat)
    (form : LinearForm TestSpaceOp Functor) (subdomain : Nat) :
    Operators.SymbolicOp (VolumeIntegral w) (LinearForm TestSpaceOp Functor) :=
  form.dV_subdomains w {subdomain}

/-- Member `LinearForm::dV()`: `VolumeIntegral().template integrate<ScalarType>(*this)`. -/
def LinearForm.dV {TestSpaceOp Functor : Type} (w : Nat)
    (form : LinearForm TestSpaceOp Functor) :
    Operators.SymbolicOp (VolumeIntegral w) (LinearForm TestSpaceOp Functor) :=
  (VolumeIntegral.construct_default w).integrate form

/-- Member `LinearForm::dA(const std::set<subdomain_t> &boundaries)`. -/
def LinearForm.dA_boundaries {TestSpaceOp Functor : Type} (w : Nat)
    (form : LinearForm TestSpaceOp Functor) (boundaries : Finset Nat) :
    Operators.SymbolicOp (BoundaryIntegral w) (LinearForm TestSpaceOp Functor) :=
  (BoundaryIntegral.construct w boundaries).integrate form

/-- Member `LinearForm::dA(const subdomain_t boundary)`. -/
def LinearForm.dA_boundary {TestSpaceOp Functor : Type} (w : Nat)
    (form : LinearForm TestSpaceOp Functor) (boundary : Nat) :
    Operators.SymbolicOp (BoundaryIntegral w) (LinearForm TestSpaceOp Functor) :=
  form.dA_boundaries w {boundary}

/-- Member `LinearForm::dA()`. -/
def LinearForm.dA {TestSpaceOp Functor : Type} (w : Nat)
    (form : LinearForm TestSpaceOp Functor) :
    Operators.SymbolicOp (BoundaryIntegral w) (LinearForm TestSpaceOp Functor) :=
  (BoundaryIntegral.construct_default w).integrate form

/-- Member `LinearForm::dI(const std::set<subdomain_t> &interfaces)`. -/
def LinearForm.dI_interfaces {TestSpaceOp Functor : Type} (w : Nat)
    (form : LinearForm TestSpaceOp Functor) (interfaces : Finset Nat) :
    Operators.SymbolicOp (InterfaceIntegral w) (LinearForm TestSpaceOp Functor) :=
  (InterfaceIntegral.construct w interfaces).integrate form

/-- Member `LinearForm::dI(const subdomain_t interface)`. -/
def LinearForm.dI_interface {TestSpaceOp Functor : Type} (w : Nat)
    (form : LinearForm TestSpaceOp Functor) (interface : Nat) :
    Operators.SymbolicOp (InterfaceIntegral w) (LinearForm TestSpaceOp Functor) :=
  form.dI_interfaces w {interface}

/-- Member `LinearForm::dI()`. -/
def LinearForm.dI {TestSpaceOp Functor : Type} (w : Nat)
    (form : LinearForm TestSpaceOp Functor) :
    Operators.SymbolicOp (InterfaceIntegral w) (LinearForm TestSpaceOp Functor) :=
  (InterfaceIntegral.construct_default w).integrate form

/-! ## Evaluating the normal operand -/

/-- The classes of the finite-element library derived from `FEValuesBase`: the
dynamic type of the object behind a `const FEValuesBase<dim2, spacedim> &`. -/
inductive FEValuesDynamicType where
  | FEValues
  | FEFaceValues
  | FESubfaceValues
  deriving DecidableEq, Repr

/-- Whether `dynamic_cast<const FEFaceValuesBase<dim2, spacedim> *>` gives a
non-null pointer: `FEFaceValues` and `FESubfaceValues` derive from
`FEFaceValuesBase`, `FEValues` does not. -/
def FEValuesDynamicType.castable_to_FEFaceValuesBase : FEValuesDynamicType → Bool
  | .FEValues => false
  | .FEFaceValues => true
  | .FESubfaceValues => true

/-- What the call operator of the normal operand reads from its argument: the
dynamic type and, through `get_normal_vectors()`, the normal vectors at all
quadrature points. -/
structure FEValuesObject (N : Type) where
  dynamic_type : FEValuesDynamicType
  get_normal_vectors : List N

namespace Operators

/-- The call operator of `SymbolicOp<Normal<dim, spacedim>, value>`:
`Assert(dynamic_cast<const FEFaceValuesBase<dim2, spacedim> *>(&fe_face_values),
ExcNotCastableToFEFaceValuesBase())`, then the normal vectors of the argument
seen as `FEFaceValuesBase`. -/
def SymbolicOpNormal.operator_call {dim spacedim : Nat} {N : Type}
    (_op : SymbolicOpNormal dim spacedim) (fe_face_values : FEValuesObject N) :
    Except Exc (List N) := do
  Assert fe_face_values.dynamic_type.castable_to_FEFaceValuesBase
    Exc.ExcNotCastableToFEFaceValuesBase
  return fe_face_values.get_normal_vectors

end Operators

/-! ## Sequences of calls on the functor cache -/

/-- The memory after a sequence of calls of `initialize`, each on some scratch
data with a null or a non-null persistent cache; a call that raises leaves the
memory it reached and the sequence goes on. -/
def AD_SD_Functor_Cache.initialize_all (prefix_deal_II : String) (m : Memory)
    (calls : List (ScratchId × Option CacheId)) : Memory :=
  calls.foldl
    (fun acc call => ( AD_SD_Functor_Cache.initialize prefix_deal_II acc call.1 call.2).2) m

/-- The two states of a scratch storage with respect to the cache names:
neither name is stored, or the cache name holds a pointer to the member `cache`
of a functor cache and the flag name holds `true`. -/
def AD_SD_Functor_Cache.names_consistent (prefix_deal_II : String)
    (g : GeneralDataStorage) : Prop :=
  (g.any_data (AD_SD_Functor_Cache.get_name_ad_sd_cache prefix_deal_II) = none ∧
      g.any_data (AD_SD_Functor_Cache.get_name_ad_sd_cache_flag prefix_deal_II) = none) ∨
    ∃ c : CacheId,
      g.any_data (AD_SD_Functor_Cache.get_name_ad_sd_cache prefix_deal_II) =
          some (.storage_reference (.of_functor_cache c)) ∧
        g.any_data (AD_SD_Functor_Cache.get_name_ad_sd_cache_flag prefix_deal_II) =
          some (.bool_copy true)

/-! ## Concrete inputs -/

/-- A face in the interior of the mesh. -/
def interiorFace : Face :=
  { at_boundary := false, boundary_id := 4294967295, manifold_id := 7 }

/-- A face on the boundary of the mesh. -/
def boundaryFace : Face :=
  { at_boundary := true, boundary_id := 3, manifold_id := 7 }

/-- A cell with material id `0` whose face `0` is on the boundary and whose
other faces are interior. -/
def cellA : Cell :=
  { material_id := 0, face := fun f => if f = 0 then boundaryFace else interiorFace }

/-- A cell with material id `1` and the same faces as `cellA`. -/
def cellB : Cell :=
  { material_id := 1, face := fun f => if f = 0 then boundaryFace else interiorFace }

/-- The sentinel for a 32-bit identifier type, `(unsigned int)(-1)`. -/
def sentinel32 : Nat := 4294967295

/-- A volume integral built from the sentinel-only set. -/
def volumeSentinel : VolumeIntegral 32 := ⟨⟨{sentinel32}⟩⟩

/-- A volume integral over the materials `1` and `5`. -/
def volumeOneFive : VolumeIntegral 32 := ⟨⟨{1, 5}⟩⟩

/-- A boundary integral built from the empty set. -/
def boundaryEverywhere : BoundaryIntegral 32 := ⟨⟨∅⟩⟩

/-- An interface integral built from the empty set. -/
def interfaceEverywhere : InterfaceIntegral 32 := ⟨⟨∅⟩⟩

/-- An interface integral built from the sentinel-only set. -/
def interfaceSentinel : InterfaceIntegral 32 := ⟨⟨{sentinel32}⟩⟩

/-- An identifier set holding the sentinel next to the identifier `1`. -/
def integralOneAndSentinel : Integral 32 := ⟨{1, sentinel32}⟩

/-- An identifier set holding only the sentinel. -/
def integralSentinel : Integral 32 := ⟨{sentinel32}⟩

/-- An integrand type whose `get_update_flags()` returns the stored flags. -/
structure SampleIntegrand where
  flags : UpdateFlags

instance instHasUpdateFlagsSample : HasUpdateFlags SampleIntegrand where
  get_update_flags := fun f => f.flags

/-- A symbolic integral, over the materials `1` and `5`, of an integrand that
asks for the flags `0b0101`. -/
def sampleOp : Operators.SymbolicOp (VolumeIntegral 32) SampleIntegrand :=
  { integral_operation := volumeOneFive, integrand := { flags := 5 } }

/-- A cell context with two quadrature points of weights `10` and `11`. -/
def sampleFEValues : FEValuesBase Int :=
  { n_quadrature_points := 2, JxW := fun q => if q = 0 then 10 else if q = 1 then 11 else 0 }

/-- An interface context with two quadrature points of weights `20` and `21`. -/
def sampleFEInterfaceValues : FEInterfaceValues Int :=
  { n_quadrature_points := 2, JxW := fun q => if q = 0 then 20 else if q = 1 then 21 else 0 }

/-- A freshly created vectorized value with four lanes, all holding `-1`. -/
def sampleFresh : VectorizedValue Int 4 := fun _ => -1

/-- Sample values of the traits of `type_traits.h`: the test functions are the
types named `TestFunction`, the valid functors are the types named
`ScalarFunctor` and the symbolic integrals, nothing else is an integral. -/
def sampleTraits : TypeTraits :=
  { is_or_has_test_function_op := fun T => decide (T = .other "TestFunction")
    is_valid_form_functor := fun T =>
      decide (T = .other "ScalarFunctor") || is_symbolic_integral_op T
    is_integral_op_elsewhere := fun _ => false }

/-- The type of a volume integral of a scalar functor. -/
def sampleIntegralType : CxxType :=
  .SymbolicOp .VolumeIntegral .value (.other "double") (.other "ScalarFunctor")

/-- The stem of the cache names used in the examples. -/
def sampleStem : String := "__DEAL_II__"

/-- A memory in which every scratch data storage is empty and every functor
cache object was constructed with the queue length `8`. -/
def sampleMemory : Memory :=
  { scratch_data := fun _ => GeneralDataStorage.empty
    functor_cache := fun _ => AD_SD_Functor_Cache.construct 8 }

/-- A linear form of a test operand that asks for the flags `0b0011` and a
functor that asks for the flags `0b0101`. -/
def sampleLinearForm : LinearForm SampleIntegrand SampleIntegrand :=
  { test_space_op := { flags := 3 }, functor_op := { flags := 5 } }

/-- A rank-2 operand of dimension `2` whose value is the non-symmetric tensor
with the rows `(1, 2)` and `(3, 4)` at every quadrature point. -/
def sampleTensorNode : SymbolicNode Unit (Tensor2 2 ℚ) :=
  constant_functor { component := fun i j => 2 * (i.val : ℚ) + (j.val : ℚ) + 1 }

/-- A boundary integral over the boundary ids `3` and `4`. -/
def boundaryThreeFour : BoundaryIntegral 32 := ⟨⟨{3, 4}⟩⟩

/-- An interface integral over the manifold ids `7` and `9`. -/
def interfaceSevenNine : InterfaceIntegral 32 := ⟨⟨{7, 9}⟩⟩

/-- A face context with two quadrature points and the normals `1` and `2`. -/
def sampleFaceValues : FEValuesObject Int :=
  { dynamic_type := .FEFaceValues, get_normal_vectors := [1, 2] }

/-- A cell context. -/
def sampleCellValues : FEValuesObject Int :=
  { dynamic_type := .FEValues, get_normal_vectors := [] }

/-- The value operation of the normal operand in two dimensions. -/
def sampleNormalOp : Operators.SymbolicOpNormal 2 2 :=
  (Normal.mk : Normal 2 2).value

/-! ## Facts about the identifier sets -/

theorem invalid_index_eq (w : Nat) : invalid_index w = 2 ^ w - 1 := by
  unfold invalid_index
  have hpos : 0 < 2 ^ w := Nat.pow_pos (by decide)
  have hcast : ((2 : Int) ^ w) = (((2 ^ w : Nat)) : Int) := by push_cast; rfl
  rw [hcast]
  generalize 2 ^ w = m at hpos
  have h1 : ((-1 : Int) % (m : Int)) = (m : Int) - 1 := by
    have hsplit : (-1 : Int) = ((m : Int) - 1) + (m : Int) * (-1) := by ring
    rw [hsplit, Int.add_mul_emod_self_left, Int.emod_eq_of_lt] <;> omega
  rw [h1]
  omega

/-- The whole domain is integrated over exactly for the empty set and for the
set whose only member is the invalid index. -/
theorem integrate_over_entire_domain_iff {w : Nat} (I : Integral w) :
    I.integrate_over_entire_domain = true ↔
      I.subdomains = ∅ ∨ I.subdomains = {invalid_index w} := by
  unfold Integral.integrate_over_entire_domain
  simp only [Bool.or_eq_true, Bool.and_eq_true, decide_eq_true_eq]
  constructor
  · rintro (h | ⟨hc, hm⟩)
    · exact Or.inl h
    · right
      obtain ⟨a, ha⟩ := Finset.card_eq_one.mp hc
      rw [ha, Finset.min_singleton] at hm
      have hav : a = invalid_index w := WithTop.coe_injective hm
      rw [ha, hav]
  · rintro (h | h)
    · exact Or.inl h
    · right
      rw [h]
      exact ⟨Finset.card_singleton _, Finset.min_singleton⟩

/-- The membership predicate in closed form. -/
theorem integrate_on_subdomain_iff {w : Nat} (I : Integral w) (idx : Nat) :
    I.integrate_on_subdomain idx = true ↔
      I.subdomains = ∅ ∨ I.subdomains = {invalid_index w} ∨ idx ∈ I.subdomains := by
  unfold Integral.integrate_on_subdomain
  by_cases h : I.integrate_over_entire_domain = true
  · have h2 := (integrate_over_entire_domain_iff I).mp h
    simp only [h, if_true, true_iff]
    tauto
  · have h2 := mt (integrate_over_entire_domain_iff I).mpr h
    have hf : I.integrate_over_entire_domain = false := by simpa using h
    simp only [hf, Bool.false_eq_true, if_false, decide_eq_true_eq]
    tauto

theorem sentinel32_eq : sentinel32 = invalid_index 32 := by
  rw [invalid_index_eq]
  rfl

/-! ## Integration domains: the entire domain -/

/-- C1: a `VolumeIntegral` built from the empty identifier set, or from the set
whose only member is the sentinel `SubDomainType(-1)` (which is `2 ^ w - 1`),
integrates over the entire domain, and `integrate_on_cell` is true for every
cell whatever its material id. -/
theorem volume_integral_entire_domain (w : Nat) (V : VolumeIntegral w)
    (h : V.subdomains = ∅ ∨ V.subdomains = {invalid_index w}) :
    invalid_index w = 2 ^ w - 1 ∧
      V.toIntegral.integrate_over_entire_domain = true ∧
      ∀ cell : Cell, V.integrate_on_cell cell = true := by
  refine ⟨invalid_index_eq w, (integrate_over_entire_domain_iff V.toIntegral).mpr h, ?_⟩
  intro cell
  unfold VolumeIntegral.integrate_on_cell
  rw [integrate_on_subdomain_iff]
  tauto

/-- Witness for C1: the sentinel-only set over a 32-bit identifier type, on two
cells with the material ids `0` and `1`. -/
theorem volume_integral_entire_domain_witness :
    cellA.material_id ≠ cellB.material_id ∧
      volumeSentinel.toIntegral.integrate_over_entire_domain = true ∧
      volumeSentinel.integrate_on_cell cellA = true ∧
      volumeSentinel.integrate_on_cell cellB = true :=
  have h := volume_integral_entire_domain 32 volumeSentinel
    (Or.inr (congrArg (fun x => ({x} : Finset Nat)) sentinel32_eq))
  ⟨by decide, h.2.1, h.2.2 cellA, h.2.2 cellB⟩

/-- C2, as stated, fails: with the empty identifier set a `BoundaryIntegral`
rejects the interior face `1` of `cellA`, and an `InterfaceIntegral` rejects
its boundary face `0`. -/
theorem face_integrals_entire_domain_counterexample :
    boundaryEverywhere.subdomains = ∅ ∧
      interfaceEverywhere.subdomains = ∅ ∧
      boundaryEverywhere.integrate_on_face cellA 1 = false ∧
      interfaceEverywhere.integrate_on_face cellA 0 0 = false := by
  decide

/-- C2, amended: built from the empty or the sentinel-only set, a
`BoundaryIntegral` answers true exactly for the faces at the mesh boundary and
an `InterfaceIntegral` answers true exactly for the faces that are not at the
mesh boundary, whatever the boundary id or manifold id of the face. -/
theorem face_integrals_entire_domain (w w' : Nat) (B : BoundaryIntegral w)
    (N : InterfaceIntegral w')
    (hB : B.subdomains = ∅ ∨ B.subdomains = {invalid_index w})
    (hN : N.subdomains = ∅ ∨ N.subdomains = {invalid_index w'})
    (cell : Cell) (face neighbour_face : Nat) :
    B.integrate_on_face cell face = (cell.face face).at_boundary ∧
      N.integrate_on_face cell face neighbour_face = !(cell.face face).at_boundary := by
  have hB' : ∀ idx, B.toIntegral.integrate_on_subdomain idx = true := fun idx =>
    (integrate_on_subdomain_iff B.toIntegral idx).mpr (by tauto)
  have hN' : ∀ idx, N.toIntegral.integrate_on_subdomain idx = true := fun idx =>
    (integrate_on_subdomain_iff N.toIntegral idx).mpr (by tauto)
  unfold BoundaryIntegral.integrate_on_face InterfaceIntegral.integrate_on_face
  cases hb : (cell.face face).at_boundary <;> simp [hB', hN']

/-- Witness for C2, amended: the empty boundary set and the sentinel-only
interface set on the boundary face `0` of `cellA`. -/
theorem face_integrals_entire_domain_witness :
    boundaryEverywhere.integrate_on_face cellA 0 = true ∧
      interfaceSentinel.integrate_on_face cellA 0 0 = false :=
  face_integrals_entire_domain 32 32 boundaryEverywhere interfaceSentinel
    (Or.inl rfl) (Or.inr (congrArg (fun x => ({x} : Finset Nat)) sentinel32_eq)) cellA 0 0

/-- C3, as stated, fails: the set `{1, 2^32 - 1}` has the sentinel as a member,
yet it does not denote the entire domain and the identifier `2` is rejected. -/
theorem sentinel_member_counterexample :
    invalid_index 32 ∈ integralOneAndSentinel.subdomains ∧
      integralOneAndSentinel.integrate_over_entire_domain = false ∧
      integralOneAndSentinel.integrate_on_subdomain 2 = false := by
  decide

/-- C3, amended: for a set that has the sentinel as a member, the entire domain
is integrated over exactly when the sentinel is its only member, as for the
empty set; and an identifier is accepted exactly when the sentinel is the only
member or the identifier is a member of the set. -/
theorem sentinel_member_membership (w : Nat) (I : Integral w)
    (h : invalid_index w ∈ I.subdomains) :
    (I.integrate_over_entire_domain = true ↔ I.subdomains = {invalid_index w}) ∧
      ∀ idx : Nat, (I.integrate_on_subdomain idx = true ↔
        I.subdomains = {invalid_index w} ∨ idx ∈ I.subdomains) := by
  have hne : I.subdomains ≠ ∅ := Finset.ne_empty_of_mem h
  constructor
  · rw [integrate_over_entire_domain_iff]
    tauto
  · intro idx
    rw [integrate_on_subdomain_iff]
    tauto

/-- Witness for C3, amended: the sentinel-only set over a 32-bit identifier type
accepts the identifier `2`. -/
theorem sentinel_member_membership_witness :
    integralSentinel.integrate_over_entire_domain = true ∧
      integralSentinel.integrate_on_subdomain 2 = true :=
  have hs : integralSentinel.subdomains = {invalid_index 32} :=
    congrArg (fun x => ({x} : Finset Nat)) sentinel32_eq
  have h := sentinel_member_membership 32 integralSentinel
    (by rw [hs]; exact Finset.mem_singleton_self _)
  ⟨h.1.mpr hs, (h.2 2).mpr (Or.inl hs)⟩

/-- C4: an `InterfaceIntegral` with any identifier set answers false for every
face at the mesh boundary, for every `neighbour_face`; the member function has
no assertion and no error path. -/
theorem interface_integral_skips_boundary_faces (w : Nat) (N : InterfaceIntegral w)
    (cell : Cell) (face neighbour_face : Nat)
    (h : (cell.face face).at_boundary = true) :
    N.integrate_on_face cell face neighbour_face = false := by
  unfold InterfaceIntegral.integrate_on_face
  simp [h]

/-- Witness for C4: the sentinel-only interface set on the boundary face `0` of
`cellA`. -/
theorem interface_integral_skips_boundary_faces_witness :
    (cellA.face 0).at_boundary = true ∧
      interfaceSentinel.integrate_on_face cellA 0 4 = false :=
  ⟨rfl, interface_integral_skips_boundary_faces 32 interfaceSentinel cellA 0 4 rfl⟩

/-- C5: when the identifier set is neither empty nor the sentinel singleton,
`integrate_on_subdomain(idx)` is true if and only if `idx` is a member, and
`VolumeIntegral::integrate_on_cell` is true if and only if the material id of
the cell is a member. -/
theorem membership_on_specific_set (w : Nat) (I : Integral w)
    (hne : I.subdomains ≠ ∅) (hns : I.subdomains ≠ {invalid_index w}) :
    (∀ idx : Nat, I.integrate_on_subdomain idx = true ↔ idx ∈ I.subdomains) ∧
      ∀ cell : Cell, (VolumeIntegral.mk I).integrate_on_cell cell = true ↔
        cell.material_id ∈ I.subdomains := by
  have key : ∀ idx : Nat, I.integrate_on_subdomain idx = true ↔ idx ∈ I.subdomains := by
    intro idx
    rw [integrate_on_subdomain_iff]
    tauto
  exact ⟨key, fun cell => key cell.material_id⟩

/-- Witness for C5: the set `{1, 5}` accepts `cellB` (material `1`) and rejects
`cellA` (material `0`). -/
theorem membership_on_specific_set_witness :
    volumeOneFive.integrate_on_cell cellB = true ∧
      ¬ volumeOneFive.integrate_on_cell cellA = true :=
  have h := membership_on_specific_set 32 volumeOneFive.toIntegral (by decide)
    (by rw [← sentinel32_eq]; decide)
  ⟨(h.2 cellB).mpr (by decide), fun hc => absurd ((h.2 cellA).mp hc) (by decide)⟩

namespace Operators

variable {IntegralType IntegrandType : Type}

theorem operator_call_single_of_lt {F α : Type} [FEValuesType F α]
    (op : SymbolicOp IntegralType IntegrandType) (fe_values : F) (q_point : Nat)
    (h : q_point < FEValuesType.n_quadrature_points fe_values) :
    op.operator_call_single fe_values q_point = .ok (FEValuesType.JxW fe_values q_point) := by
  simp [SymbolicOp.operator_call_single, Assert, h, bind, Except.bind, pure, Except.pure]

theorem operator_call_single_of_ge {F α : Type} [FEValuesType F α]
    (op : SymbolicOp IntegralType IntegrandType) (fe_values : F) (q_point : Nat)
    (h : FEValuesType.n_quadrature_points fe_values ≤ q_point) :
    op.operator_call_single fe_values q_point =
      .error (Exc.ExcIndexRange q_point 0 (FEValuesType.n_quadrature_points fe_values)) := by
  have h' : ¬ q_point < FEValuesType.n_quadrature_points fe_values := Nat.not_lt.mpr h
  simp [SymbolicOp.operator_call_single, Assert, h', bind, Except.bind]

theorem vectorized_loop_body_eq {F α : Type} [FEValuesType F α] {width : Nat}
    (op : SymbolicOp IntegralType IntegrandType) (fe_values : F)
    (q_point_range : vectorized_qp_range_t) (fresh : VectorizedValue α width) (n : Nat) :
    op.vectorized_loop_body fe_values q_point_range
        (lanes_after fe_values q_point_range fresh n) n =
      .ok (lanes_after fe_values q_point_range fresh (n + 1)) := by
  unfold SymbolicOp.vectorized_loop_body
  by_cases hq : q_point_range.get n < FEValuesType.n_quadrature_points fe_values
  · rw [if_pos hq, operator_call_single_of_lt op fe_values _ hq]
    show Except.ok _ = Except.ok _
    congr 1
    funext j
    unfold set_vectorized_values lanes_after
    by_cases hj : j.val = n
    · simp [hj, hq]
    · have hlt : j.val < n + 1 ↔ j.val < n := by omega
      simp [hj, hlt]
  · rw [if_neg hq]
    show Except.ok _ = Except.ok _
    congr 1
    funext j
    unfold lanes_after
    by_cases hj : j.val = n
    · simp [hj, hq]
    · have hlt : j.val < n + 1 ↔ j.val < n := by omega
      simp [hlt]

theorem vectorized_loop_eq {F α : Type} [FEValuesType F α] {width : Nat}
    (op : SymbolicOp IntegralType IntegrandType) (fe_values : F)
    (q_point_range : vectorized_qp_range_t) (fresh : VectorizedValue α width) (n : Nat) :
    (List.range n).foldlM
        (fun acc i => op.vectorized_loop_body fe_values q_point_range acc i) fresh =
      .ok (lanes_after fe_values q_point_range fresh n) := by
  induction n with
  | zero =>
    have h0 : lanes_after fe_values q_point_range fresh 0 = fresh := by
      funext j
      simp [lanes_after]
    rw [h0]
    rfl
  | succ n ih =>
    rw [List.range_succ, List.foldlM_append, ih]
    change List.foldlM (fun acc i => op.vectorized_loop_body fe_values q_point_range acc i)
      (lanes_after fe_values q_point_range fresh n) [n] = _
    rw [List.foldlM_cons, vectorized_loop_body_eq]
    rfl

end Operators

/-- C6: the update flags of a symbolic integral are the bitwise or of the
flags of its integrand with `update_JxW_values`, for every integrand and every
integration domain: bit by bit, a flag is set exactly when the integrand sets
it or it is a bit of `update_JxW_values`. -/
theorem symbolic_integral_update_flags {IntegralType IntegrandType : Type}
    [HasUpdateFlags IntegrandType] (update_JxW_values : UpdateFlags)
    (op : Operators.SymbolicOp IntegralType IntegrandType) :
    op.get_update_flags update_JxW_values =
        HasUpdateFlags.get_update_flags op.integrand ||| update_JxW_values ∧
      ∀ i : Nat, (op.get_update_flags update_JxW_values).testBit i =
        ((HasUpdateFlags.get_update_flags op.integrand).testBit i ||
          update_JxW_values.testBit i) := by
  refine ⟨rfl, fun i => ?_⟩
  unfold Operators.SymbolicOp.get_update_flags Operators.SymbolicOp.get_integrand
  exact Nat.testBit_lor _ _ i

/-- C7: vectorized evaluation over a range of at most `width` quadrature
indices returns without error, on `FEValuesBase` and on `FEInterfaceValues`:
lane `i` below the size of the range whose index is a quadrature point holds
the weight `JxW` of that index, a lane whose index is not a quadrature point
and a lane at or beyond the size of the range hold the value of the freshly
created output. -/
theorem vectorized_call_lanes {IntegralType IntegrandType α : Type} (width : Nat)
    (op : Operators.SymbolicOp IntegralType IntegrandType)
    (fe_values : FEValuesBase α) (fe_interface_values : FEInterfaceValues α)
    (q_point_range : vectorized_qp_range_t) (fresh : VectorizedValue α width)
    (h : q_point_range.size ≤ width) :
    (∃ out, op.operator_call_vectorized width fe_values q_point_range fresh = .ok out ∧
        (∀ j : Fin width, j.val < q_point_range.size →
          q_point_range.get j.val < fe_values.n_quadrature_points →
          out j = fe_values.JxW (q_point_range.get j.val)) ∧
        (∀ j : Fin width, j.val < q_point_range.size →
          fe_values.n_quadrature_points ≤ q_point_range.get j.val → out j = fresh j) ∧
        (∀ j : Fin width, q_point_range.size ≤ j.val → out j = fresh j)) ∧
      (∃ out, op.operator_call_vectorized_interface width fe_interface_values
            q_point_range fresh = .ok out ∧
        (∀ j : Fin width, j.val < q_point_range.size →
          q_point_range.get j.val < fe_interface_values.n_quadrature_points →
          out j = fe_interface_values.JxW (q_point_range.get j.val)) ∧
        (∀ j : Fin width, j.val < q_point_range.size →
          fe_interface_values.n_quadrature_points ≤ q_point_range.get j.val →
          out j = fresh j) ∧
        (∀ j : Fin width, q_point_range.size ≤ j.val → out j = fresh j)) := by
  constructor
  · refine ⟨Operators.lanes_after fe_values q_point_range fresh q_point_range.size, ?_, ?_, ?_, ?_⟩
    · unfold Operators.SymbolicOp.operator_call_vectorized
      simp only [Assert, h, decide_True, if_true]
      exact Operators.vectorized_loop_eq op fe_values q_point_range fresh q_point_range.size
    · intro j hj hq
      have hq' : q_point_range.get j.val < FEValuesType.n_quadrature_points fe_values := hq
      simp [Operators.lanes_after, hj, hq']
      rfl
    · intro j _ hq
      have hq' : ¬ q_point_range.get j.val < FEValuesType.n_quadrature_points fe_values :=
        Nat.not_lt.mpr hq
      simp [Operators.lanes_after, hq']
    · intro j hj
      have hj' : ¬ j.val < q_point_range.size := Nat.not_lt.mpr hj
      simp [Operators.lanes_after, hj']
  · refine ⟨Operators.lanes_after fe_interface_values q_point_range fresh q_point_range.size,
      ?_, ?_, ?_, ?_⟩
    · unfold Operators.SymbolicOp.operator_call_vectorized_interface
      simp only [Assert, h, decide_True, if_true]
      exact Operators.vectorized_loop_eq op fe_interface_values q_point_range fresh
        q_point_range.size
    · intro j hj hq
      have hq' : q_point_range.get j.val <
          FEValuesType.n_quadrature_points fe_interface_values := hq
      simp [Operators.lanes_after, hj, hq']
      rfl
    · intro j _ hq
      have hq' : ¬ q_point_range.get j.val <
          FEValuesType.n_quadrature_points fe_interface_values := Nat.not_lt.mpr hq
      simp [Operators.lanes_after, hq']
    · intro j hj
      have hj' : ¬ j.val < q_point_range.size := Nat.not_lt.mpr hj
      simp [Operators.lanes_after, hj']

/-- Witness for C7: four lanes, the range `[0, 4)` and two quadrature points;
lanes `0` and `1` receive the weights, lanes `2` and `3` keep the fresh value. -/
theorem vectorized_call_lanes_witness :
    (∃ out, sampleOp.operator_call_vectorized 4 sampleFEValues (q_point_range 0 4)
          sampleFresh = .ok out ∧
        out 0 = 10 ∧ out 1 = 11 ∧ out 2 = -1 ∧ out 3 = -1) ∧
      (∃ out, sampleOp.operator_call_vectorized_interface 4 sampleFEInterfaceValues
          (q_point_range 0 2) sampleFresh = .ok out ∧
        out 0 = 20 ∧ out 1 = 21 ∧ out 2 = -1 ∧ out 3 = -1) := by
  constructor
  · obtain ⟨⟨out, hout, h1, h2, _⟩, _⟩ := vectorized_call_lanes 4 sampleOp sampleFEValues
      sampleFEInterfaceValues (q_point_range 0 4) sampleFresh (by decide)
    exact ⟨out, hout, h1 0 (by decide) (by decide), h1 1 (by decide) (by decide),
      h2 2 (by decide) (by decide), h2 3 (by decide) (by decide)⟩
  · obtain ⟨_, out, hout, h1, _, h3⟩ := vectorized_call_lanes 4 sampleOp sampleFEValues
      sampleFEInterfaceValues (q_point_range 0 2) sampleFresh (by decide)
    exact ⟨out, hout, h1 0 (by decide) (by decide), h1 1 (by decide) (by decide),
      h3 2 (by decide), h3 3 (by decide)⟩

/-- C8: single-point evaluation of a symbolic integral at the quadrature index
`q_point` returns `JxW(q_point)` when `q_point < n_quadrature_points`, and
otherwise fails with `ExcIndexRange(q_point, 0, n_quadrature_points)`; it
returns no value in that case. -/
theorem single_call_in_range_or_fails {IntegralType IntegrandType F α : Type}
    [FEValuesType F α] (op : Operators.SymbolicOp IntegralType IntegrandType)
    (fe_values : F) (q_point : Nat) :
    (q_point < FEValuesType.n_quadrature_points fe_values →
        op.operator_call_single fe_values q_point =
          .ok (FEValuesType.JxW fe_values q_point)) ∧
      (FEValuesType.n_quadrature_points fe_values ≤ q_point →
        op.operator_call_single fe_values q_point =
            .error (Exc.ExcIndexRange q_point 0 (FEValuesType.n_quadrature_points fe_values)) ∧
          ∀ v : α, op.operator_call_single fe_values q_point ≠ .ok v) := by
  refine ⟨Operators.operator_call_single_of_lt op fe_values q_point, fun h => ?_⟩
  rw [Operators.operator_call_single_of_ge op fe_values q_point h]
  exact ⟨rfl, fun v hv => by cases hv⟩

/-- Witness for C8: with two quadrature points, index `1` gives the weight `11`
and index `2` raises `ExcIndexRange(2, 0, 2)`. -/
theorem single_call_in_range_or_fails_witness :
    sampleOp.operator_call_single sampleFEValues 1 = .ok 11 ∧
      sampleOp.operator_call_single sampleFEValues 2 = .error (Exc.ExcIndexRange 2 0 2) :=
  ⟨(single_call_in_range_or_fails sampleOp sampleFEValues 1).1 (by decide),
    ((single_call_in_range_or_fails sampleOp sampleFEValues 2).2 (by decide)).1⟩

/-- C9: instantiating the symbolic integral with an integrand that is itself a
symbolic integral over a volume, boundary or interface domain fails with
"Cannot integrate an integral!", for every integration domain and scalar type;
with an integrand that is not an integral op the check passes and the node type
is built. -/
theorem nested_integration_rejected (tr : TypeTraits)
    (IntegralType ScalarType : CxxType) :
    (∀ (K : CxxType) (OpCode : SymbolicOpCodes) (S G : CxxType),
        is_valid_integration_domain K = true →
        SymbolicOp_instantiate tr IntegralType ScalarType (.SymbolicOp K OpCode S G) =
          .error "Cannot integrate an integral!") ∧
      (∀ G : CxxType, is_symbolic_integral_op G = true →
        SymbolicOp_instantiate tr IntegralType ScalarType G =
          .error "Cannot integrate an integral!") ∧
      (∀ G : CxxType, is_integral_op tr G = false →
        SymbolicOp_instantiate tr IntegralType ScalarType G =
          .ok (.SymbolicOp IntegralType .value ScalarType G)) := by
  have hsym : ∀ G : CxxType, is_symbolic_integral_op G = true →
      SymbolicOp_instantiate tr IntegralType ScalarType G =
        .error "Cannot integrate an integral!" := by
    intro G hG
    simp [SymbolicOp_instantiate, is_integral_op, hG]
  refine ⟨?_, hsym, ?_⟩
  · intro K OpCode S G hK
    apply hsym
    cases K <;> simp_all [is_valid_integration_domain, is_symbolic_integral_op,
      is_volume_integral_op, is_boundary_integral_op, is_interface_integral_op]
  · intro G hG
    simp [SymbolicOp_instantiate, hG]

/-- Witness for C9: a boundary integral cannot take a volume integral as its
integrand, and it can take a scalar functor. -/
theorem nested_integration_rejected_witness :
    SymbolicOp_instantiate sampleTraits .BoundaryIntegral (.other "double")
        sampleIntegralType = .error "Cannot integrate an integral!" ∧
      SymbolicOp_instantiate sampleTraits .BoundaryIntegral (.other "double")
        (.other "ScalarFunctor") =
        .ok (.SymbolicOp .BoundaryIntegral .value (.other "double") (.other "ScalarFunctor")) :=
  have h := nested_integration_rejected sampleTraits .BoundaryIntegral (.other "double")
  ⟨h.1 .VolumeIntegral .value (.other "double") (.other "ScalarFunctor") rfl,
    h.2.2 (.other "ScalarFunctor") rfl⟩

/-- C10: `LinearForm<TestSpaceOp, Functor>` is accepted if and only if the test
operand is or has a test-function operation, the functor is a valid form
functor, and the functor is not a symbolic integral; in every other case the
instantiation is rejected with the message of a `static_assert`. -/
theorem linear_form_accepted_iff (tr : TypeTraits) (TestSpaceOp Functor : CxxType) :
    (LinearForm_instantiate tr TestSpaceOp Functor = .ok (.LinearForm TestSpaceOp Functor) ↔
        (tr.is_or_has_test_function_op TestSpaceOp = true ∧
          tr.is_valid_form_functor Functor = true ∧
          is_symbolic_integral_op Functor = false)) ∧
      (¬ (tr.is_or_has_test_function_op TestSpaceOp = true ∧
          tr.is_valid_form_functor Functor = true ∧
          is_symbolic_integral_op Functor = false) →
        ∃ msg : String, LinearForm_instantiate tr TestSpaceOp Functor = .error msg) := by
  unfold LinearForm_instantiate
  cases h1 : tr.is_or_has_test_function_op TestSpaceOp <;>
    cases h2 : tr.is_valid_form_functor Functor <;>
    cases h3 : is_symbolic_integral_op Functor <;> simp

/-- Witness for C10: a test function with a scalar functor is accepted; a test
function with a volume integral as functor is rejected, and so is a scalar
functor in the place of the test function. -/
theorem linear_form_accepted_iff_witness :
    LinearForm_instantiate sampleTraits (.other "TestFunction") (.other "ScalarFunctor") =
        .ok (.LinearForm (.other "TestFunction") (.other "ScalarFunctor")) ∧
      (∃ msg : String, LinearForm_instantiate sampleTraits (.other "TestFunction")
        sampleIntegralType = .error msg) ∧
      (∃ msg : String, LinearForm_instantiate sampleTraits (.other "ScalarFunctor")
        (.other "ScalarFunctor") = .error msg) :=
  ⟨(linear_form_accepted_iff sampleTraits (.other "TestFunction") (.other "ScalarFunctor")).1.mpr
      (by decide),
    (linear_form_accepted_iff sampleTraits (.other "TestFunction") sampleIntegralType).2
      (by decide),
    (linear_form_accepted_iff sampleTraits (.other "ScalarFunctor") (.other "ScalarFunctor")).2
      (by decide)⟩

/-! ## Linear forms and the normal operand: update flags -/

/-- C11: the update flags of a linear form are the bitwise or of the flags of
its test-space operation and of its functor: bit by bit, a flag is set exactly
when one of the two sets it. -/
theorem linear_form_update_flags {TestSpaceOp Functor : Type}
    [HasUpdateFlags TestSpaceOp] [HasUpdateFlags Functor]
    (form : LinearForm TestSpaceOp Functor) :
    form.get_update_flags =
        HasUpdateFlags.get_update_flags form.get_test_space_operation |||
          HasUpdateFlags.get_update_flags form.get_functor ∧
      ∀ i : Nat, form.get_update_flags.testBit i =
        ((HasUpdateFlags.get_update_flags form.get_test_space_operation).testBit i ||
          (HasUpdateFlags.get_update_flags form.get_functor).testBit i) := by
  refine ⟨rfl, fun i => ?_⟩
  unfold LinearForm.get_update_flags LinearForm.get_test_space_operation LinearForm.get_functor
  exact Nat.testBit_lor _ _ i

/-- C20: the value operation of `Normal<dim, spacedim>` asks for exactly
`update_normal_vectors`, bit by bit, for every `dim` and `spacedim`. -/
theorem normal_value_update_flags (dim spacedim : Nat) (update_normal_vectors : UpdateFlags)
    (operand : Normal dim spacedim) :
    operand.value.get_update_flags update_normal_vectors = update_normal_vectors ∧
      ∀ i : Nat, (operand.value.get_update_flags update_normal_vectors).testBit i =
        update_normal_vectors.testBit i :=
  ⟨rfl, fun _ => rfl⟩

/-! ## The functor cache -/

theorem cache_flag_name_ne (p : String) :
    AD_SD_Functor_Cache.get_name_ad_sd_cache_flag p ≠
      AD_SD_Functor_Cache.get_name_ad_sd_cache p := by
  intro h
  have hl := congrArg String.length h
  unfold AD_SD_Functor_Cache.get_name_ad_sd_cache_flag at hl
  rw [String.length_append] at hl
  have h5 : "_Flag".length = 5 := by decide
  omega

/-- The three outcomes of a call with a persistent cache, by what the storage
of the scratch data holds. -/
theorem initialize_cases (p : String) (m : Memory) (s : ScratchId) (c : CacheId) :
    AD_SD_Functor_Cache.initialize p m s (some c) =
      if (m.scratch_data s).stores_object_with_name
          (AD_SD_Functor_Cache.get_name_ad_sd_cache p) = true then
        (.error (Exc.ExcNameHasBeenFound (AD_SD_Functor_Cache.get_name_ad_sd_cache p)), m)
      else if (m.scratch_data s).stores_object_with_name
          (AD_SD_Functor_Cache.get_name_ad_sd_cache_flag p) = true then
        (.error (Exc.ExcNameHasBeenFound (AD_SD_Functor_Cache.get_name_ad_sd_cache_flag p)),
          m.set_storage (.of_scratch_data s)
            ((m.scratch_data s).add_or_overwrite (AD_SD_Functor_Cache.get_name_ad_sd_cache p)
              (.storage_reference (.of_functor_cache c))))
      else
        (.ok (), (m.set_storage (.of_scratch_data s)
            ((m.scratch_data s).add_or_overwrite (AD_SD_Functor_Cache.get_name_ad_sd_cache p)
              (.storage_reference (.of_functor_cache c)))).set_storage (.of_scratch_data s)
          (((m.scratch_data s).add_or_overwrite (AD_SD_Functor_Cache.get_name_ad_sd_cache p)
              (.storage_reference (.of_functor_cache c))).add_or_overwrite
            (AD_SD_Functor_Cache.get_name_ad_sd_cache_flag p) (.bool_copy true))) := by
  have hne := cache_flag_name_ne p
  have hf' : ((m.scratch_data s).add_or_overwrite (AD_SD_Functor_Cache.get_name_ad_sd_cache p)
      (.storage_reference (.of_functor_cache c))).stores_object_with_name
        (AD_SD_Functor_Cache.get_name_ad_sd_cache_flag p) =
      (m.scratch_data s).stores_object_with_name
        (AD_SD_Functor_Cache.get_name_ad_sd_cache_flag p) := by
    simp [GeneralDataStorage.stores_object_with_name, GeneralDataStorage.add_or_overwrite, hne]
  unfold AD_SD_Functor_Cache.initialize GeneralDataStorage.add_unique_reference
    GeneralDataStorage.add_unique_copy
  by_cases hc : (m.scratch_data s).stores_object_with_name
      (AD_SD_Functor_Cache.get_name_ad_sd_cache p) = true
  · simp only [hc, if_true]
  · have hc' : (m.scratch_data s).stores_object_with_name
        (AD_SD_Functor_Cache.get_name_ad_sd_cache p) = false := by simpa using hc
    by_cases hf : (m.scratch_data s).stores_object_with_name
        (AD_SD_Functor_Cache.get_name_ad_sd_cache_flag p) = true
    · simp [hc', hf', hf]
    · have hf2 : (m.scratch_data s).stores_object_with_name
          (AD_SD_Functor_Cache.get_name_ad_sd_cache_flag p) = false := by simpa using hf
      simp [hc', hf', hf2]

/-- A call with a persistent cache on a storage that holds neither name
succeeds and stores the two entries. -/
theorem initialize_fresh (p : String) (m : Memory) (s : ScratchId) (c : CacheId)
    (hc : (m.scratch_data s).stores_object_with_name
      (AD_SD_Functor_Cache.get_name_ad_sd_cache p) = false)
    (hf : (m.scratch_data s).stores_object_with_name
      (AD_SD_Functor_Cache.get_name_ad_sd_cache_flag p) = false) :
    ( AD_SD_Functor_Cache.initialize p m s (some c)).1 = .ok () ∧
      (( AD_SD_Functor_Cache.initialize p m s (some c)).2.scratch_data s).any_data
          (AD_SD_Functor_Cache.get_name_ad_sd_cache p) =
        some (.storage_reference (.of_functor_cache c)) ∧
      (( AD_SD_Functor_Cache.initialize p m s (some c)).2.scratch_data s).any_data
          (AD_SD_Functor_Cache.get_name_ad_sd_cache_flag p) = some (.bool_copy true) ∧
      (∀ s' : ScratchId, s' ≠ s →
        ( AD_SD_Functor_Cache.initialize p m s (some c)).2.scratch_data s' =
          m.scratch_data s') ∧
      ( AD_SD_Functor_Cache.initialize p m s (some c)).2.functor_cache = m.functor_cache := by
  have hne := cache_flag_name_ne p
  have hne' : AD_SD_Functor_Cache.get_name_ad_sd_cache p ≠
      AD_SD_Functor_Cache.get_name_ad_sd_cache_flag p := fun h => hne h.symm
  rw [initialize_cases, hc, hf]
  simp only [Bool.false_eq_true, if_false]
  refine ⟨trivial, ?_, ?_, ?_, rfl⟩
  · simp [Memory.set_storage, GeneralDataStorage.add_or_overwrite, hne']
  · simp [Memory.set_storage, GeneralDataStorage.add_or_overwrite]
  · intro s' hs
    simp [Memory.set_storage, hs]

/-- A call with a persistent cache on a storage that holds the cache name is
refused and leaves the memory. -/
theorem initialize_registered (p : String) (m : Memory) (s : ScratchId) (c : CacheId)
    (hc : (m.scratch_data s).stores_object_with_name
      (AD_SD_Functor_Cache.get_name_ad_sd_cache p) = true) :
    AD_SD_Functor_Cache.initialize p m s (some c) =
      (.error (Exc.ExcNameHasBeenFound (AD_SD_Functor_Cache.get_name_ad_sd_cache p)), m) := by
  rw [initialize_cases, if_pos hc]

/-- A call with a persistent cache succeeds only on a storage that holds
neither name. -/
theorem initialize_ok_fresh (p : String) (m : Memory) (s : ScratchId) (c : CacheId)
    (hok : ( AD_SD_Functor_Cache.initialize p m s (some c)).1 = .ok ()) :
    (m.scratch_data s).stores_object_with_name
        (AD_SD_Functor_Cache.get_name_ad_sd_cache p) = false ∧
      (m.scratch_data s).stores_object_with_name
        (AD_SD_Functor_Cache.get_name_ad_sd_cache_flag p) = false := by
  rw [initialize_cases] at hok
  by_cases hc : (m.scratch_data s).stores_object_with_name
      (AD_SD_Functor_Cache.get_name_ad_sd_cache p) = true
  · rw [if_pos hc] at hok
    cases hok
  · by_cases hf : (m.scratch_data s).stores_object_with_name
        (AD_SD_Functor_Cache.get_name_ad_sd_cache_flag p) = true
    · rw [if_neg hc, if_pos hf] at hok
      cases hok
    · exact ⟨by simpa using hc, by simpa using hf⟩

/-- Reading the cache of a scratch data whose storage holds the flag name and
a pointer under the cache name. -/
theorem get_cache_of_entries (p : String) (m : Memory) (s : ScratchId) (r : StorageRef)
    (e : AnyEntry)
    (hc : (m.scratch_data s).any_data (AD_SD_Functor_Cache.get_name_ad_sd_cache p) =
      some (.storage_reference r))
    (hf : (m.scratch_data s).any_data (AD_SD_Functor_Cache.get_name_ad_sd_cache_flag p) =
      some e) :
    AD_SD_Functor_Cache.get_cache p m s = .ok r := by
  simp [AD_SD_Functor_Cache.get_cache, AD_SD_Functor_Cache.has_user_cache,
    GeneralDataStorage.stores_object_with_name, GeneralDataStorage.get_object_with_name, hc, hf]

theorem put_functor_cache_scratch_data (m : Memory) (c : CacheId) (name : String)
    (entry : AnyEntry) :
    (m.put (.of_functor_cache c) name entry).scratch_data = m.scratch_data :=
  rfl

theorem put_functor_cache_found (m : Memory) (c : CacheId) (name : String)
    (entry : AnyEntry) :
    ((m.put (.of_functor_cache c) name entry).storage (.of_functor_cache c)).any_data name =
      some entry := by
  simp [Memory.put, Memory.set_storage, Memory.storage, GeneralDataStorage.add_or_overwrite]

theorem stores_false_of_eq {g g' : GeneralDataStorage} (h : g = g') (name : String)
    (hs : g'.stores_object_with_name name = false) :
    g.stores_object_with_name name = false := by
  rw [h]
  exact hs

/-- C12: without a persistent cache the cache is the storage of the scratch
data itself: when that storage does not hold the cache flag name, the call with
`nullptr` returns normally and leaves the memory as it was, and `get_cache`
afterwards returns the general data storage of the scratch data. -/
theorem null_cache_uses_own_storage (p : String) (m : Memory) (s : ScratchId)
    (h : (m.scratch_data s).stores_object_with_name
      (AD_SD_Functor_Cache.get_name_ad_sd_cache_flag p) = false) :
    AD_SD_Functor_Cache.initialize p m s none = (.ok (), m) ∧
      AD_SD_Functor_Cache.get_cache p ( AD_SD_Functor_Cache.initialize p m s none).2 s =
        .ok (.of_scratch_data s) ∧
      ( AD_SD_Functor_Cache.initialize p m s none).2.storage (.of_scratch_data s) =
        m.scratch_data s := by
  refine ⟨rfl, ?_, rfl⟩
  show AD_SD_Functor_Cache.get_cache p m s = _
  simp [AD_SD_Functor_Cache.get_cache, AD_SD_Functor_Cache.has_user_cache, h]

/-- Witness for C12: scratch data `0` of the sample memory, whose storage is
empty. -/
theorem null_cache_uses_own_storage_witness :
    AD_SD_Functor_Cache.initialize sampleStem sampleMemory 0 none = (.ok (), sampleMemory) ∧
      AD_SD_Functor_Cache.get_cache sampleStem sampleMemory 0 = .ok (.of_scratch_data 0) :=
  have h := null_cache_uses_own_storage sampleStem sampleMemory 0 rfl
  ⟨h.1, h.2.1⟩

/-- C13: after a call with the persistent cache `c` on a scratch data that
holds neither cache name, `get_cache` returns the member `cache` of `c`, which
is not the storage of the scratch data. An entry put through that reference is
found through `get_cache` of every other scratch data that is given `c`, be it
before the entry is put (`s2`) or after (`s3`). -/
theorem persistent_cache_is_shared (p : String) (m : Memory) (s1 s2 s3 : ScratchId)
    (c : CacheId) (h12 : s1 ≠ s2) (h13 : s1 ≠ s3) (h23 : s2 ≠ s3)
    (h1c : (m.scratch_data s1).stores_object_with_name
      (AD_SD_Functor_Cache.get_name_ad_sd_cache p) = false)
    (h1f : (m.scratch_data s1).stores_object_with_name
      (AD_SD_Functor_Cache.get_name_ad_sd_cache_flag p) = false)
    (h2c : (m.scratch_data s2).stores_object_with_name
      (AD_SD_Functor_Cache.get_name_ad_sd_cache p) = false)
    (h2f : (m.scratch_data s2).stores_object_with_name
      (AD_SD_Functor_Cache.get_name_ad_sd_cache_flag p) = false)
    (h3c : (m.scratch_data s3).stores_object_with_name
      (AD_SD_Functor_Cache.get_name_ad_sd_cache p) = false)
    (h3f : (m.scratch_data s3).stores_object_with_name
      (AD_SD_Functor_Cache.get_name_ad_sd_cache_flag p) = false) :
    let m1 := ( AD_SD_Functor_Cache.initialize p m s1 (some c)).2
    let m2 := ( AD_SD_Functor_Cache.initialize p m1 s2 (some c)).2
    ( AD_SD_Functor_Cache.initialize p m s1 (some c)).1 = .ok () ∧
      AD_SD_Functor_Cache.get_cache p m1 s1 = .ok (.of_functor_cache c) ∧
      StorageRef.of_functor_cache c ≠ StorageRef.of_scratch_data s1 ∧
      ( AD_SD_Functor_Cache.initialize p m1 s2 (some c)).1 = .ok () ∧
      AD_SD_Functor_Cache.get_cache p m2 s1 = .ok (.of_functor_cache c) ∧
      AD_SD_Functor_Cache.get_cache p m2 s2 = .ok (.of_functor_cache c) ∧
      ∀ (name : String) (entry : AnyEntry),
        let m3 := m2.put (.of_functor_cache c) name entry
        let m4 := ( AD_SD_Functor_Cache.initialize p m3 s3 (some c)).2
        ( AD_SD_Functor_Cache.initialize p m3 s3 (some c)).1 = .ok () ∧
          AD_SD_Functor_Cache.get_cache p m4 s1 = .ok (.of_functor_cache c) ∧
          AD_SD_Functor_Cache.get_cache p m4 s2 = .ok (.of_functor_cache c) ∧
          AD_SD_Functor_Cache.get_cache p m4 s3 = .ok (.of_functor_cache c) ∧
          (m4.storage (.of_functor_cache c)).any_data name = some entry := by
  intro m1 m2
  obtain ⟨a1, a2, a3, a4, a5⟩ := initialize_fresh p m s1 c h1c h1f
  have b2c : (m1.scratch_data s2).stores_object_with_name
      (AD_SD_Functor_Cache.get_name_ad_sd_cache p) = false :=
    stores_false_of_eq (a4 s2 (Ne.symm h12)) _ h2c
  have b2f : (m1.scratch_data s2).stores_object_with_name
      (AD_SD_Functor_Cache.get_name_ad_sd_cache_flag p) = false :=
    stores_false_of_eq (a4 s2 (Ne.symm h12)) _ h2f
  obtain ⟨b1, b2, b3, b4, b5⟩ := initialize_fresh p m1 s2 c b2c b2f
  have m2s1 : m2.scratch_data s1 = m1.scratch_data s1 := b4 s1 h12
  refine ⟨a1, get_cache_of_entries p m1 s1 _ _ a2 a3, by simp, b1,
    get_cache_of_entries p m2 s1 _ (.bool_copy true) (by rw [m2s1]; exact a2)
      (by rw [m2s1]; exact a3),
    get_cache_of_entries p m2 s2 _ _ b2 b3, ?_⟩
  intro name entry m3 m4
  have e3 : m3.scratch_data = m2.scratch_data := put_functor_cache_scratch_data m2 c name entry
  have m2s3 : m2.scratch_data s3 = m.scratch_data s3 := by
    rw [b4 s3 (Ne.symm h23), a4 s3 (Ne.symm h13)]
  have c3c : (m3.scratch_data s3).stores_object_with_name
      (AD_SD_Functor_Cache.get_name_ad_sd_cache p) = false :=
    stores_false_of_eq (by rw [e3, m2s3]) _ h3c
  have c3f : (m3.scratch_data s3).stores_object_with_name
      (AD_SD_Functor_Cache.get_name_ad_sd_cache_flag p) = false :=
    stores_false_of_eq (by rw [e3, m2s3]) _ h3f
  obtain ⟨c1, c2, c3, c4, c5⟩ := initialize_fresh p m3 s3 c c3c c3f
  have m4s1 : m4.scratch_data s1 = m1.scratch_data s1 := by
    rw [c4 s1 h13, e3, b4 s1 h12]
  have m4s2 : m4.scratch_data s2 = m2.scratch_data s2 := by
    rw [c4 s2 h23, e3]
  refine ⟨c1, ?_, ?_, get_cache_of_entries p m4 s3 _ _ c2 c3, ?_⟩
  · exact get_cache_of_entries p m4 s1 _ (.bool_copy true) (by rw [m4s1]; exact a2)
      (by rw [m4s1]; exact a3)
  · exact get_cache_of_entries p m4 s2 _ (.bool_copy true) (by rw [m4s2]; exact b2)
      (by rw [m4s2]; exact b3)
  · have hst : m4.storage (.of_functor_cache c) = m3.storage (.of_functor_cache c) := by
      show (m4.functor_cache c).cache = (m3.functor_cache c).cache
      rw [c5]
    rw [hst]
    exact put_functor_cache_found m2 c name entry

/-- Witness for C13: the scratch data `0`, `1` and `2` of the sample memory
share the member `cache` of the functor cache `0`; an entry put under the name
`tape` through the cache of scratch data `0` is found through the cache of
scratch data `2`, which is given the functor cache afterwards. -/
theorem persistent_cache_is_shared_witness :
    let m2 := ( AD_SD_Functor_Cache.initialize sampleStem
      ( AD_SD_Functor_Cache.initialize sampleStem sampleMemory 0 (some 0)).2 1 (some 0)).2
    let m4 := ( AD_SD_Functor_Cache.initialize sampleStem
      (m2.put (.of_functor_cache 0) "tape" (.other "ADHelper")) 2 (some 0)).2
    AD_SD_Functor_Cache.get_cache sampleStem m2 0 = .ok (.of_functor_cache 0) ∧
      AD_SD_Functor_Cache.get_cache sampleStem m4 2 = .ok (.of_functor_cache 0) ∧
      (m4.storage (.of_functor_cache 0)).any_data "tape" = some (.other "ADHelper") :=
  have h := persistent_cache_is_shared sampleStem sampleMemory 0 1 2 0 (by decide) (by decide)
    (by decide) rfl rfl rfl rfl rfl rfl
  ⟨h.2.2.2.2.1, (h.2.2.2.2.2.2 "tape" (.other "ADHelper")).2.2.2.1,
    (h.2.2.2.2.2.2 "tape" (.other "ADHelper")).2.2.2.2⟩

/-- C14, as stated, fails: on scratch data `0` of the sample memory the first
call with the functor cache `0` succeeds and the second call with the same
cache raises `ExcNameHasBeenFound` for the cache name. -/
theorem repeated_initialize_counterexample :
    ( AD_SD_Functor_Cache.initialize sampleStem sampleMemory 0 (some 0)).1 = .ok () ∧
      ( AD_SD_Functor_Cache.initialize sampleStem
          ( AD_SD_Functor_Cache.initialize sampleStem sampleMemory 0 (some 0)).2 0 (some 0)).1 =
        .error (Exc.ExcNameHasBeenFound "__DEAL_II__AD_SD_Functor_Cache") := by
  constructor <;> rfl

/-- C14, amended: after a first successful call with the persistent cache `c`,
a second call with `c` on the same scratch data raises `ExcNameHasBeenFound`
for the cache name and leaves the memory, and so the storage of the scratch
data, as the first call left it. -/
theorem repeated_initialize_is_refused (p : String) (m : Memory) (s : ScratchId)
    (c : CacheId) (hok : ( AD_SD_Functor_Cache.initialize p m s (some c)).1 = .ok ()) :
    AD_SD_Functor_Cache.initialize p
        ( AD_SD_Functor_Cache.initialize p m s (some c)).2 s (some c) =
      (.error (Exc.ExcNameHasBeenFound (AD_SD_Functor_Cache.get_name_ad_sd_cache p)),
        ( AD_SD_Functor_Cache.initialize p m s (some c)).2) := by
  obtain ⟨hc, hf⟩ := initialize_ok_fresh p m s c hok
  obtain ⟨_, a2, _⟩ := initialize_fresh p m s c hc hf
  apply initialize_registered
  simp [GeneralDataStorage.stores_object_with_name, a2]

/-- Witness for C14, amended: scratch data `0` and functor cache `0` of the
sample memory. -/
theorem repeated_initialize_is_refused_witness :
    ( AD_SD_Functor_Cache.initialize sampleStem
        ( AD_SD_Functor_Cache.initialize sampleStem sampleMemory 0 (some 0)).2 0 (some 0)).1 =
      .error (Exc.ExcNameHasBeenFound (AD_SD_Functor_Cache.get_name_ad_sd_cache sampleStem)) :=
  congrArg Prod.fst (repeated_initialize_is_refused sampleStem sampleMemory 0 0 rfl)

/-- C15: the first registration wins. After a successful call with the
persistent cache `c1`, a further call on the same scratch data, with `nullptr`
or with any persistent cache `c2`, leaves the memory as it was, and `get_cache`
still returns the member `cache` of `c1`. -/
theorem first_registration_wins (p : String) (m : Memory) (s : ScratchId) (c1 : CacheId)
    (c2 : Option CacheId)
    (hok : ( AD_SD_Functor_Cache.initialize p m s (some c1)).1 = .ok ()) :
    ( AD_SD_Functor_Cache.initialize p
        ( AD_SD_Functor_Cache.initialize p m s (some c1)).2 s c2).2 =
        ( AD_SD_Functor_Cache.initialize p m s (some c1)).2 ∧
      AD_SD_Functor_Cache.get_cache p
        ( AD_SD_Functor_Cache.initialize p
          ( AD_SD_Functor_Cache.initialize p m s (some c1)).2 s c2).2 s =
        .ok (.of_functor_cache c1) := by
  obtain ⟨hc, hf⟩ := initialize_ok_fresh p m s c1 hok
  obtain ⟨_, a2, a3, _⟩ := initialize_fresh p m s c1 hc hf
  have hsame : ( AD_SD_Functor_Cache.initialize p
      ( AD_SD_Functor_Cache.initialize p m s (some c1)).2 s c2).2 =
      ( AD_SD_Functor_Cache.initialize p m s (some c1)).2 := by
    cases c2 with
    | none => rfl
    | some c =>
      rw [initialize_registered]
      simp [GeneralDataStorage.stores_object_with_name, a2]
  exact ⟨hsame, by rw [hsame]; exact get_cache_of_entries p _ s _ _ a2 a3⟩

/-- Witness for C15: on scratch data `0` of the sample memory the functor cache
`0` is registered first, the functor cache `1` second. -/
theorem first_registration_wins_witness :
    AD_SD_Functor_Cache.get_cache sampleStem
        ( AD_SD_Functor_Cache.initialize sampleStem
          ( AD_SD_Functor_Cache.initialize sampleStem sampleMemory 0 (some 0)).2 0 (some 1)).2 0 =
      .ok (.of_functor_cache 0) :=
  (first_registration_wins sampleStem sampleMemory 0 0 (some 1) rfl).2

/-- C16: `queue_length()` returns the value given to the constructor; without
an argument that value is `2 * n_threads` in `unsigned int` arithmetic, which is
`2 * n_threads` whenever this is representable. No call of `initialize` and no
write through a reference returned by `get_cache` or `get_destination_cache`
changes the queue length of any functor cache object. -/
theorem queue_length_fixed_at_construction (queue_length w n_threads : Nat) :
    (AD_SD_Functor_Cache.construct queue_length).queue_length = queue_length ∧
      (AD_SD_Functor_Cache.construct_default w n_threads).queue_length =
        (2 * n_threads) % 2 ^ w ∧
      (2 * n_threads < 2 ^ w →
        (AD_SD_Functor_Cache.construct_default w n_threads).queue_length = 2 * n_threads) ∧
      (∀ (p : String) (m : Memory) (s : ScratchId) (c : Option CacheId) (c' : CacheId),
        (( AD_SD_Functor_Cache.initialize p m s c).2.functor_cache c').queue_length =
          (m.functor_cache c').queue_length) ∧
      (∀ (m : Memory) (r : StorageRef) (name : String) (entry : AnyEntry) (c' : CacheId),
        ((m.put r name entry).functor_cache c').queue_length =
          (m.functor_cache c').queue_length) := by
  refine ⟨rfl, rfl, fun h => ?_, ?_, ?_⟩
  · show (2 * n_threads) % 2 ^ w = 2 * n_threads
    exact Nat.mod_eq_of_lt h
  · intro p m s c c'
    cases c with
    | none => rfl
    | some c =>
      rw [initialize_cases]
      split_ifs <;> rfl
  · intro m r name entry c'
    cases r with
    | of_scratch_data s => rfl
    | of_functor_cache c =>
      by_cases h : c' = c
      · simp [Memory.put, Memory.set_storage, AD_SD_Functor_Cache.queue_length, h]
      · simp [Memory.put, Memory.set_storage, AD_SD_Functor_Cache.queue_length, h]

/-- Witness for C16: four threads and a 32-bit `unsigned int` give the queue
length `8`, also after a call of `initialize`. -/
theorem queue_length_fixed_at_construction_witness :
    (AD_SD_Functor_Cache.construct_default 32 4).queue_length = 8 ∧
      (( AD_SD_Functor_Cache.initialize sampleStem sampleMemory 0 (some 0)).2.functor_cache
        0).queue_length = 8 :=
  have h := queue_length_fixed_at_construction 8 32 4
  ⟨h.2.2.1 (by decide), h.2.2.2.1 sampleStem sampleMemory 0 (some 0) 0⟩

/-! ## Unary operators -/

/-- C17: negating twice is the identity on evaluated values. For every operand
`f` whose values have an involutive negation, `-(-f)` evaluates to the value of
`f` at every quadrature point and in every lane of every vectorized batch; this
holds for scalar-valued operands such as `test.value()` and for rank-2
tensor-valued operands such as `test.hessian()`, and the constant functor `2.0`
negated twice evaluates to `2.0`. -/
theorem double_negation_is_identity {Context V α : Type} [InvolutiveNeg V] [InvolutiveNeg α]
    (dim : Nat) (f : SymbolicNode Context V) (hessian : SymbolicNode Context (Tensor2 dim α)) :
    (∀ (c : Context) (q : Nat), (negate (negate f)).evaluate c q = f.evaluate c q) ∧
      (∀ (width : Nat) (c : Context) (r : vectorized_qp_range_t) (dof : Nat) (lane : Fin width),
        (negate (negate f)).evaluate_vectorized width c r dof lane =
          f.evaluate_vectorized width c r dof lane) ∧
      (∀ (width : Nat) (c : Context) (r : vectorized_qp_range_t) (dof : Nat) (lane : Fin width),
        (negate (negate hessian)).evaluate_vectorized width c r dof lane =
          hessian.evaluate_vectorized width c r dof lane) ∧
      (∀ (c : Context) (q : Nat),
        (negate (negate (constant_functor Binary64.two))).evaluate c q = Binary64.two) := by
  refine ⟨fun c q => ?_, fun width c r dof lane => ?_, fun width c r dof lane => ?_,
    fun c q => ?_⟩
  · exact neg_neg (f.evaluate c q)
  · exact neg_neg (f.evaluate_vectorized width c r dof lane)
  · exact neg_neg (hessian.evaluate_vectorized width c r dof lane)
  · exact neg_neg Binary64.two

/-- C18: for every rank-2 operand `X` of dimension `dim`, `symmetrize(X)` and
`transpose(symmetrize(X))` are rank-2 operands, and `transpose(symmetrize(X))`
evaluates, at every quadrature point and in every lane of a batch, to the
transpose of the symmetric part `(X + X^T) / 2` of the value of `X`, which is
the symmetric part itself. -/
theorem transpose_symmetrize_value {Context α : Type} [AddCommMagma α] [Div α] [OfNat α 2]
    (dim : Nat) (X : SymbolicNode Context (Tensor2 dim α)) :
    X.rank = 2 ∧ (symmetrize X).rank = 2 ∧ (transpose (symmetrize X)).rank = 2 ∧
      (∀ (c : Context) (q : Nat),
        (transpose (symmetrize X)).evaluate c q = ((X.evaluate c q).symmetrize).transpose ∧
          ((X.evaluate c q).symmetrize).transpose = (X.evaluate c q).symmetrize ∧
          ∀ i j : Fin dim, ((transpose (symmetrize X)).evaluate c q).component i j =
            ((X.evaluate c q).component i j + (X.evaluate c q).component j i) / 2) ∧
      (∀ (width : Nat) (c : Context) (r : vectorized_qp_range_t) (dof : Nat) (lane : Fin width),
        (transpose (symmetrize X)).evaluate_vectorized width c r dof lane =
          (X.evaluate_vectorized width c r dof lane).symmetrize) := by
  have hsym : ∀ t : Tensor2 dim α, t.symmetrize.transpose = t.symmetrize := by
    intro t
    simp only [Tensor2.transpose, Tensor2.symmetrize]
    congr 1
    funext i j
    rw [add_comm]
  refine ⟨rfl, rfl, rfl, fun c q => ⟨rfl, hsym _, fun i j => ?_⟩, fun width c r dof lane => ?_⟩
  · show ((X.evaluate c q).symmetrize.transpose).component i j = _
    rw [hsym]
    rfl
  · exact hsym _

/-- Witness for C18: for the tensor with the rows `(1, 2)` and `(3, 4)`, which
is not symmetric, both off-diagonal components of `transpose(symmetrize(X))`
are `5 / 2`. -/
theorem transpose_symmetrize_value_witness :
    (sampleTensorNode.evaluate () 0).component 0 1 ≠
        (sampleTensorNode.evaluate () 0).component 1 0 ∧
      ((transpose (symmetrize sampleTensorNode)).evaluate () 0).component 0 1 = 5 / 2 ∧
      ((transpose (symmetrize sampleTensorNode)).evaluate () 0).component 1 0 = 5 / 2 := by
  have h := (transpose_symmetrize_value 2 sampleTensorNode).2.2.2.1 () 0
  refine ⟨?_, ?_, ?_⟩
  · norm_num [sampleTensorNode, constant_functor]
  · rw [h.2.2 0 1]
    norm_num [sampleTensorNode, constant_functor]
  · rw [h.2.2 1 0]
    norm_num [sampleTensorNode, constant_functor]

/-! ## Building symbolic integrals -/

/-- C21: for every linear form `L` and sub-domain id `s`, `L.dV(s)` is the
symbolic integral `L.dV({s})`, and `L.dV()` is `L.dV` of the empty set, which
denotes the entire domain; the integrand is `L` itself. The same holds for `dA`
with `BoundaryIntegral` and for `dI` with `InterfaceIntegral`. -/
theorem linear_form_integrals_agree {TestSpaceOp Functor : Type} (w : Nat)
    (L : LinearForm TestSpaceOp Functor) (s : Nat) :
    (L.dV_subdomain w s = L.dV_subdomains w {s} ∧ L.dV w = L.dV_subdomains w ∅ ∧
        (L.dV_subdomain w s).get_integrand = L ∧ (L.dV w).get_integrand = L ∧
        (L.dV_subdomain w s).get_integral_operation.subdomains = {s} ∧
        (L.dV w).integrate_over_entire_domain = true) ∧
      (L.dA_boundary w s = L.dA_boundaries w {s} ∧ L.dA w = L.dA_boundaries w ∅ ∧
        (L.dA_boundary w s).get_integrand = L ∧ (L.dA w).get_integrand = L ∧
        (L.dA_boundary w s).get_integral_operation.subdomains = {s} ∧
        (L.dA w).integrate_over_entire_domain = true) ∧
      (L.dI_interface w s = L.dI_interfaces w {s} ∧ L.dI w = L.dI_interfaces w ∅ ∧
        (L.dI_interface w s).get_integrand = L ∧ (L.dI w).get_integrand = L ∧
        (L.dI_interface w s).get_integral_operation.subdomains = {s} ∧
        (L.dI w).integrate_over_entire_domain = true) := by
  have he : ∀ I : Integral w, I.subdomains = ∅ → I.integrate_over_entire_domain = true :=
    fun I h => (integrate_over_entire_domain_iff I).mpr (Or.inl h)
  exact ⟨⟨rfl, rfl, rfl, rfl, rfl, he _ rfl⟩, ⟨rfl, rfl, rfl, rfl, rfl, he _ rfl⟩,
    ⟨rfl, rfl, rfl, rfl, rfl, he _ rfl⟩⟩

/-- C22: for every integrand `f` and every wrapper `I` of the three kinds,
`integrate(f, I)` is `I.integrate(f)`, a node whose `get_integrand()` is `f`,
whose `get_integral_operation()` is `I` and whose
`integrate_over_entire_domain()` is that of `I`; when the type of `f` is not an
integral op and the type of `I` is a valid integration domain, the type of the
node is instantiated. -/
theorem integrate_builds_node {Integrand : Type} (w : Nat) (f : Integrand)
    (V : VolumeIntegral w) (B : BoundaryIntegral w) (N : InterfaceIntegral w)
    (tr : TypeTraits) (ScalarType IntegrandType IntegralType : CxxType)
    (hf : is_integral_op tr IntegrandType = false)
    (hI : is_valid_integration_domain IntegralType = true) :
    (integrate f V = V.integrate f ∧ (integrate f V).get_integrand = f ∧
        (integrate f V).get_integral_operation = V ∧
        (integrate f V).integrate_over_entire_domain =
          V.toIntegral.integrate_over_entire_domain) ∧
      (integrate f B = B.integrate f ∧ (integrate f B).get_integrand = f ∧
        (integrate f B).get_integral_operation = B ∧
        (integrate f B).integrate_over_entire_domain =
          B.toIntegral.integrate_over_entire_domain) ∧
      (integrate f N = N.integrate f ∧ (integrate f N).get_integrand = f ∧
        (integrate f N).get_integral_operation = N ∧
        (integrate f N).integrate_over_entire_domain =
          N.toIntegral.integrate_over_entire_domain) ∧
      integrate_instantiate tr ScalarType IntegrandType IntegralType =
        .ok (.SymbolicOp IntegralType .value ScalarType IntegrandType) := by
  refine ⟨⟨rfl, rfl, rfl, rfl⟩, ⟨rfl, rfl, rfl, rfl⟩, ⟨rfl, rfl, rfl, rfl⟩, ?_⟩
  simp [integrate_instantiate, SymbolicOp_instantiate, hf, hI]

/-- Witness for C22: the sample integrand integrated over the materials `1` and
`5`, and the type of a scalar functor integrated over a volume. -/
theorem integrate_builds_node_witness :
    (integrate (SampleIntegrand.mk 5) volumeOneFive).get_integrand = SampleIntegrand.mk 5 ∧
      (integrate (SampleIntegrand.mk 5) volumeOneFive).get_integral_operation =
        volumeOneFive ∧
      integrate_instantiate sampleTraits (.other "double") (.other "ScalarFunctor")
          .VolumeIntegral = .ok sampleIntegralType :=
  have h := integrate_builds_node 32 (SampleIntegrand.mk 5) volumeOneFive boundaryEverywhere
    interfaceEverywhere sampleTraits (.other "double") (.other "ScalarFunctor")
    .VolumeIntegral rfl rfl
  ⟨h.1.2.1, h.1.2.2.1, h.2.2.2⟩

/-! ## Integration domains: faces -/

/-- C23: `BoundaryIntegral::integrate_on_face` is true if and only if the face
is at the mesh boundary and the wrapper integrates over the entire domain or
the boundary id of the face is in the identifier set; it is false for every
face that is not at the boundary, whatever the set. -/
theorem boundary_integral_on_face_iff (w : Nat) (B : BoundaryIntegral w) (cell : Cell)
    (face : Nat) :
    (B.integrate_on_face cell face = true ↔
        (cell.face face).at_boundary = true ∧
          (B.toIntegral.integrate_over_entire_domain = true ∨
            (cell.face face).boundary_id ∈ B.subdomains)) ∧
      ((cell.face face).at_boundary = false → B.integrate_on_face cell face = false) := by
  have hsub : ∀ idx, B.toIntegral.integrate_on_subdomain idx = true ↔
      (B.toIntegral.integrate_over_entire_domain = true ∨ idx ∈ B.subdomains) := by
    intro idx
    rw [integrate_on_subdomain_iff, integrate_over_entire_domain_iff]
    tauto
  unfold BoundaryIntegral.integrate_on_face
  cases hb : (cell.face face).at_boundary
  · simp
  · simp [hsub]

/-- Witness for C23: the boundary ids `3` and `4` accept the boundary face `0`
of `cellA` (boundary id `3`) and reject its interior face `1`. -/
theorem boundary_integral_on_face_iff_witness :
    boundaryThreeFour.integrate_on_face cellA 0 = true ∧
      boundaryThreeFour.integrate_on_face cellA 1 = false :=
  ⟨(boundary_integral_on_face_iff 32 boundaryThreeFour cellA 0).1.mpr
      ⟨rfl, Or.inr (by decide)⟩,
    (boundary_integral_on_face_iff 32 boundaryThreeFour cellA 1).2 rfl⟩

/-- C24: for a face that is not at the mesh boundary,
`InterfaceIntegral::integrate_on_face` is true if and only if the wrapper
integrates over the entire domain or the manifold id of the face is in the
identifier set, and the result does not depend on `neighbour_face`. -/
theorem interface_integral_on_interior_face (w : Nat) (N : InterfaceIntegral w) (cell : Cell)
    (face : Nat) (h : (cell.face face).at_boundary = false) :
    (∀ neighbour_face : Nat, (N.integrate_on_face cell face neighbour_face = true ↔
        (N.toIntegral.integrate_over_entire_domain = true ∨
          (cell.face face).manifold_id ∈ N.subdomains))) ∧
      ∀ n1 n2 : Nat, N.integrate_on_face cell face n1 = N.integrate_on_face cell face n2 := by
  refine ⟨fun neighbour_face => ?_, fun _ _ => rfl⟩
  unfold InterfaceIntegral.integrate_on_face
  rw [h]
  simp only [Bool.false_eq_true, if_false]
  rw [integrate_on_subdomain_iff, integrate_over_entire_domain_iff]
  tauto

/-- Witness for C24: the manifold ids `7` and `9` accept the interior face `1` of
`cellA` (manifold id `7`), for the neighbour faces `0` and `5` alike. -/
theorem interface_integral_on_interior_face_witness :
    interfaceSevenNine.integrate_on_face cellA 1 0 = true ∧
      interfaceSevenNine.integrate_on_face cellA 1 0 =
        interfaceSevenNine.integrate_on_face cellA 1 5 :=
  have h := interface_integral_on_interior_face 32 interfaceSevenNine cellA 1 rfl
  ⟨(h.1 0).mpr (Or.inr (by decide)), h.2 0 5⟩

/-- C28: boundary and interface integrals partition the faces. When both
integrate over the entire domain, the boundary integral accepts a face exactly
when it is at the mesh boundary and the interface integral exactly when it is
not, so exactly one of the two accepts it; for arbitrary identifier sets no
face is accepted by both. -/
theorem boundary_interface_partition (w w' : Nat) (B : BoundaryIntegral w)
    (N : InterfaceIntegral w') (cell : Cell) (face neighbour_face : Nat) :
    ¬ (B.integrate_on_face cell face = true ∧
        N.integrate_on_face cell face neighbour_face = true) ∧
      (B.toIntegral.integrate_over_entire_domain = true →
        N.toIntegral.integrate_over_entire_domain = true →
        (B.integrate_on_face cell face = true ↔ (cell.face face).at_boundary = true) ∧
          (N.integrate_on_face cell face neighbour_face = true ↔
            (cell.face face).at_boundary = false) ∧
          (B.integrate_on_face cell face = !N.integrate_on_face cell face neighbour_face)) := by
  unfold BoundaryIntegral.integrate_on_face InterfaceIntegral.integrate_on_face
    Integral.integrate_on_subdomain
  constructor
  · cases hb : (cell.face face).at_boundary <;> simp
  · intro hB hN
    cases hb : (cell.face face).at_boundary <;> simp [hB, hN]

/-- Witness for C28: with the empty sets, the boundary face `0` of `cellA` is
accepted by the boundary integral and not by the interface integral. -/
theorem boundary_interface_partition_witness :
    boundaryEverywhere.integrate_on_face cellA 0 = true ∧
      ¬ interfaceEverywhere.integrate_on_face cellA 0 0 = true :=
  have h := (boundary_interface_partition 32 32 boundaryEverywhere interfaceEverywhere
    cellA 0 0).2 rfl rfl
  ⟨h.1.mpr rfl, fun hN => absurd (h.2.1.mp hN) (by decide)⟩

/-- C30: the membership predicate is not monotone in the identifier set. The
empty set and the sentinel singleton accept the identifier `2`; the sets
obtained from them by adding the identifier `1` contain them and reject `2`. -/
theorem membership_not_monotone :
    (∃ (S T : Integral 32) (idx : Nat), S.subdomains ⊆ T.subdomains ∧
        S.integrate_on_subdomain idx = true ∧ T.integrate_on_subdomain idx = false) ∧
      ((⟨∅⟩ : Integral 32).subdomains ⊆ (⟨{1}⟩ : Integral 32).subdomains ∧
        (⟨∅⟩ : Integral 32).integrate_on_subdomain 2 = true ∧
        (⟨{1}⟩ : Integral 32).integrate_on_subdomain 2 = false) ∧
      (integralSentinel.subdomains ⊆ integralOneAndSentinel.subdomains ∧
        integralSentinel.subdomains = {invalid_index 32} ∧
        integralSentinel.integrate_on_subdomain 2 = true ∧
        integralOneAndSentinel.integrate_on_subdomain 2 = false) := by
  refine ⟨⟨⟨∅⟩, ⟨{1}⟩, 2, by decide, by decide, by decide⟩, ⟨by decide, by decide, by decide⟩,
    ⟨by decide, by decide, by decide, by decide⟩⟩

/-! ## Evaluation: the normal operand and the vectorized symbolic integral -/

/-- C25: the value operation of the normal operand, called on an evaluation
context, returns the normal vectors of the context at all quadrature points
when the context is a face or subface context, and it fails, with
`ExcNotCastableToFEFaceValuesBase`, if and only if the context is not one. -/
theorem normal_value_call {dim spacedim : Nat} {N : Type}
    (op : Operators.SymbolicOpNormal dim spacedim) (fe_face_values : FEValuesObject N) :
    (fe_face_values.dynamic_type = .FEFaceValues ∨
        fe_face_values.dynamic_type = .FESubfaceValues →
        op.operator_call fe_face_values = .ok fe_face_values.get_normal_vectors) ∧
      (op.operator_call fe_face_values = .error Exc.ExcNotCastableToFEFaceValuesBase ↔
        fe_face_values.dynamic_type = .FEValues) ∧
      ((∃ e : Exc, op.operator_call fe_face_values = .error e) ↔
        fe_face_values.dynamic_type = .FEValues) := by
  unfold Operators.SymbolicOpNormal.operator_call
  cases hd : fe_face_values.dynamic_type <;>
    simp [Assert, FEValuesDynamicType.castable_to_FEFaceValuesBase, bind, Except.bind, pure,
      Except.pure]

/-- Witness for C25: a face context gives its two normals, a cell context is
refused. -/
theorem normal_value_call_witness :
    sampleNormalOp.operator_call sampleFaceValues = .ok [1, 2] ∧
      sampleNormalOp.operator_call sampleCellValues =
        .error Exc.ExcNotCastableToFEFaceValuesBase :=
  ⟨(normal_value_call sampleNormalOp sampleFaceValues).1 (Or.inl rfl),
    (normal_value_call sampleNormalOp sampleCellValues).2.1.mpr rfl⟩

namespace Operators

variable {IntegralType IntegrandType : Type}

/-- One pass of the loop body never raises: the single-entry operator is
called only on an index that is a quadrature point. -/
theorem vectorized_loop_body_ok {F α : Type} [FEValuesType F α] {width : Nat}
    (op : SymbolicOp IntegralType IntegrandType) (fe_values : F)
    (q_point_range : vectorized_qp_range_t) (out : VectorizedValue α width) (i : Nat) :
    ∃ out' : VectorizedValue α width,
      op.vectorized_loop_body fe_values q_point_range out i = .ok out' := by
  unfold SymbolicOp.vectorized_loop_body
  by_cases hq : q_point_range.get i < FEValuesType.n_quadrature_points fe_values
  · rw [if_pos hq, operator_call_single_of_lt op fe_values _ hq]
    exact ⟨_, rfl⟩
  · rw [if_neg hq]
    exact ⟨_, rfl⟩

theorem operator_call_vectorized_eq {α : Type} (width : Nat)
    (op : SymbolicOp IntegralType IntegrandType) (fe_values : FEValuesBase α)
    (q_point_range : vectorized_qp_range_t) (fresh : VectorizedValue α width) :
    op.operator_call_vectorized width fe_values q_point_range fresh =
      if q_point_range.size ≤ width then
        .ok (lanes_after fe_values q_point_range fresh q_point_range.size)
      else .error (Exc.ExcIndexRange q_point_range.size 0 width) := by
  unfold SymbolicOp.operator_call_vectorized
  by_cases h : q_point_range.size ≤ width
  · simp only [Assert, h, decide_True, if_true]
    exact vectorized_loop_eq op fe_values q_point_range fresh q_point_range.size
  · simp only [Assert, h, decide_False, if_false]
    rfl

theorem operator_call_vectorized_interface_eq {α : Type} (width : Nat)
    (op : SymbolicOp IntegralType IntegrandType) (fe_interface_values : FEInterfaceValues α)
    (q_point_range : vectorized_qp_range_t) (fresh : VectorizedValue α width) :
    op.operator_call_vectorized_interface width fe_interface_values q_point_range fresh =
      if q_point_range.size ≤ width then
        .ok (lanes_after fe_interface_values q_point_range fresh q_point_range.size)
      else .error (Exc.ExcIndexRange q_point_range.size 0 width) := by
  unfold SymbolicOp.operator_call_vectorized_interface
  by_cases h : q_point_range.size ≤ width
  · simp only [Assert, h, decide_True, if_true]
    exact vectorized_loop_eq op fe_interface_values q_point_range fresh q_point_range.size
  · simp only [Assert, h, decide_False, if_false]
    rfl

end Operators

/-- C26: vectorized evaluation of a symbolic integral raises if and only if the
range holds more indices than the lane width, and then the error is
`ExcIndexRange(size, 0, width)` of the check on the range; for a range of at
most `width` indices it returns. No pass of the loop body raises, whatever the
indices and the number of quadrature points: the index-range assertion of the
single-entry operator never fails. This holds for both overloads. -/
theorem vectorized_call_raises_iff {IntegralType IntegrandType α : Type} (width : Nat)
    (op : Operators.SymbolicOp IntegralType IntegrandType)
    (fe_values : FEValuesBase α) (fe_interface_values : FEInterfaceValues α)
    (q_point_range : vectorized_qp_range_t) (fresh : VectorizedValue α width) :
    (((∃ e : Exc, op.operator_call_vectorized width fe_values q_point_range fresh =
          .error e) ↔ width < q_point_range.size) ∧
        (width < q_point_range.size →
          op.operator_call_vectorized width fe_values q_point_range fresh =
            .error (Exc.ExcIndexRange q_point_range.size 0 width)) ∧
        (q_point_range.size ≤ width →
          ∃ out, op.operator_call_vectorized width fe_values q_point_range fresh = .ok out) ∧
        ∀ (out : VectorizedValue α width) (i : Nat), ∃ out' : VectorizedValue α width,
          op.vectorized_loop_body fe_values q_point_range out i = .ok out') ∧
      (((∃ e : Exc, op.operator_call_vectorized_interface width fe_interface_values
          q_point_range fresh = .error e) ↔ width < q_point_range.size) ∧
        (width < q_point_range.size →
          op.operator_call_vectorized_interface width fe_interface_values q_point_range
            fresh = .error (Exc.ExcIndexRange q_point_range.size 0 width)) ∧
        (q_point_range.size ≤ width →
          ∃ out, op.operator_call_vectorized_interface width fe_interface_values
            q_point_range fresh = .ok out) ∧
        ∀ (out : VectorizedValue α width) (i : Nat), ∃ out' : VectorizedValue α width,
          op.vectorized_loop_body fe_interface_values q_point_range out i = .ok out') := by
  rw [Operators.operator_call_vectorized_eq, Operators.operator_call_vectorized_interface_eq]
  by_cases h : q_point_range.size ≤ width
  · have h' : ¬ width < q_point_range.size := Nat.not_lt.mpr h
    simp only [if_pos h]
    refine ⟨⟨⟨?_, fun hw => absurd hw h'⟩, fun hw => absurd hw h', fun _ => ⟨_, rfl⟩,
      Operators.vectorized_loop_body_ok op fe_values q_point_range⟩,
      ⟨⟨?_, fun hw => absurd hw h'⟩, fun hw => absurd hw h', fun _ => ⟨_, rfl⟩,
      Operators.vectorized_loop_body_ok op fe_interface_values q_point_range⟩⟩
    · rintro ⟨e, he⟩
      cases he
    · rintro ⟨e, he⟩
      cases he
  · have h' : width < q_point_range.size := Nat.lt_of_not_le h
    simp only [if_neg h]
    refine ⟨⟨⟨fun _ => h', fun _ => ⟨_, rfl⟩⟩, fun _ => trivial, fun hw => absurd hw h,
      Operators.vectorized_loop_body_ok op fe_values q_point_range⟩,
      ⟨⟨fun _ => h', fun _ => ⟨_, rfl⟩⟩, fun _ => trivial, fun hw => absurd hw h,
      Operators.vectorized_loop_body_ok op fe_interface_values q_point_range⟩⟩

/-- Witness for C26: four lanes; the range `[0, 5)` is refused with
`ExcIndexRange(5, 0, 4)`, the range `[0, 4)` is evaluated although only two of
its indices are quadrature points. -/
theorem vectorized_call_raises_iff_witness :
    sampleOp.operator_call_vectorized 4 sampleFEValues (q_point_range 0 5) sampleFresh =
        .error (Exc.ExcIndexRange 5 0 4) ∧
      ∃ out, sampleOp.operator_call_vectorized 4 sampleFEValues (q_point_range 0 4)
        sampleFresh = .ok out :=
  ⟨(vectorized_call_raises_iff 4 sampleOp sampleFEValues sampleFEInterfaceValues
      (q_point_range 0 5) sampleFresh).1.2.1 (by decide),
    (vectorized_call_raises_iff 4 sampleOp sampleFEValues sampleFEInterfaceValues
      (q_point_range 0 4) sampleFresh).1.2.2.1 (by decide)⟩

/-! ## The functor cache: destination cache and consistency of the names -/

/-- C27: `get_destination_cache` returns the general data storage of the
scratch data in every memory. After a successful call of `initialize` with the
persistent cache `c`, `get_cache` returns the member `cache` of `c`, a store
different from the destination cache; when no persistent cache is registered
(the flag name is not stored), `get_cache` returns the destination cache. -/
theorem destination_cache_is_own_storage (p : String) (m : Memory) (s : ScratchId)
    (c : CacheId) :
    (∀ (m' : Memory) (s' : ScratchId),
        AD_SD_Functor_Cache.get_destination_cache m' s' = .of_scratch_data s' ∧
          m'.storage (AD_SD_Functor_Cache.get_destination_cache m' s') =
            m'.scratch_data s') ∧
      (( AD_SD_Functor_Cache.initialize p m s (some c)).1 = .ok () →
        AD_SD_Functor_Cache.get_cache p ( AD_SD_Functor_Cache.initialize p m s (some c)).2 s =
            .ok (.of_functor_cache c) ∧
          AD_SD_Functor_Cache.get_cache p
              ( AD_SD_Functor_Cache.initialize p m s (some c)).2 s ≠
            .ok (AD_SD_Functor_Cache.get_destination_cache
              ( AD_SD_Functor_Cache.initialize p m s (some c)).2 s)) ∧
      ((m.scratch_data s).stores_object_with_name
          (AD_SD_Functor_Cache.get_name_ad_sd_cache_flag p) = false →
        AD_SD_Functor_Cache.get_cache p m s =
            .ok (AD_SD_Functor_Cache.get_destination_cache m s) ∧
          AD_SD_Functor_Cache.get_cache p ( AD_SD_Functor_Cache.initialize p m s none).2 s =
            .ok (AD_SD_Functor_Cache.get_destination_cache
              ( AD_SD_Functor_Cache.initialize p m s none).2 s)) := by
  refine ⟨fun m' s' => ⟨rfl, rfl⟩, fun hok => ?_, fun hf => ?_⟩
  · obtain ⟨hc, hf⟩ := initialize_ok_fresh p m s c hok
    obtain ⟨_, a2, a3, _⟩ := initialize_fresh p m s c hc hf
    have hg := get_cache_of_entries p _ s _ _ a2 a3
    refine ⟨hg, ?_⟩
    rw [hg]
    intro h
    cases h
  · have hg : AD_SD_Functor_Cache.get_cache p m s = .ok (.of_scratch_data s) := by
      simp [AD_SD_Functor_Cache.get_cache, AD_SD_Functor_Cache.has_user_cache, hf]
    exact ⟨hg, hg⟩

/-- Witness for C27: on scratch data `0` of the sample memory the source cache
is the persistent cache `0` after registration and the destination cache is
the scratch storage; before registration both are the scratch storage. -/
theorem destination_cache_is_own_storage_witness :
    AD_SD_Functor_Cache.get_cache sampleStem
        ( AD_SD_Functor_Cache.initialize sampleStem sampleMemory 0 (some 0)).2 0 =
        .ok (.of_functor_cache 0) ∧
      AD_SD_Functor_Cache.get_destination_cache
        ( AD_SD_Functor_Cache.initialize sampleStem sampleMemory 0 (some 0)).2 0 =
        .of_scratch_data 0 ∧
      AD_SD_Functor_Cache.get_cache sampleStem sampleMemory 0 = .ok (.of_scratch_data 0) :=
  have h := destination_cache_is_own_storage sampleStem sampleMemory 0 0
  ⟨(h.2.1 rfl).1, (h.1 _ 0).1, (h.2.2 rfl).1⟩

/-- A call of `initialize` on any scratch data keeps the names of every scratch
storage consistent. -/
theorem initialize_keeps_names_consistent (p : String) (m : Memory) (s : ScratchId)
    (c : Option CacheId) (s' : ScratchId)
    (h : AD_SD_Functor_Cache.names_consistent p (m.scratch_data s')) :
    AD_SD_Functor_Cache.names_consistent p
      (( AD_SD_Functor_Cache.initialize p m s c).2.scratch_data s') := by
  cases c with
  | none => exact h
  | some c =>
    by_cases hs : s' = s
    · subst hs
      by_cases hc : (m.scratch_data s').stores_object_with_name
          (AD_SD_Functor_Cache.get_name_ad_sd_cache p) = true
      · rw [initialize_registered p m s' c hc]
        exact h
      · have hc' : (m.scratch_data s').any_data
            (AD_SD_Functor_Cache.get_name_ad_sd_cache p) = none := by
          simpa [GeneralDataStorage.stores_object_with_name] using hc
        have hf' : (m.scratch_data s').any_data
            (AD_SD_Functor_Cache.get_name_ad_sd_cache_flag p) = none := by
          rcases h with ⟨_, hn⟩ | ⟨c0, h1, _⟩
          · exact hn
          · rw [hc'] at h1
            cases h1
        obtain ⟨_, a2, a3, _⟩ := initialize_fresh p m s' c
          (by simp [GeneralDataStorage.stores_object_with_name, hc'])
          (by simp [GeneralDataStorage.stores_object_with_name, hf'])
        exact Or.inr ⟨c, a2, a3⟩
    · have hsame : ( AD_SD_Functor_Cache.initialize p m s (some c)).2.scratch_data s' =
          m.scratch_data s' := by
        rw [initialize_cases]
        split_ifs <;> simp [Memory.set_storage, hs]
      rw [hsame]
      exact h

/-- Every sequence of calls keeps the names of every scratch storage
consistent. -/
theorem initialize_all_keeps_names_consistent (p : String)
    (calls : List (ScratchId × Option CacheId)) (m : Memory) (s' : ScratchId)
    (h : AD_SD_Functor_Cache.names_consistent p (m.scratch_data s')) :
    AD_SD_Functor_Cache.names_consistent p
      ((AD_SD_Functor_Cache.initialize_all p m calls).scratch_data s') := by
  induction calls generalizing m with
  | nil => exact h
  | cons call rest ih =>
    exact ih _ (initialize_keeps_names_consistent p m call.1 call.2 s' h)

/-- C29: in the storage of a scratch data that held neither cache name, after
any sequence of calls of `initialize` (on any scratch data, with a null or a
non-null persistent cache, returning or raising), the flag name is stored if
and only if the cache name is stored; `get_cache` then never fails with
`ExcNameNotFound`, it returns a reference. -/
theorem cache_names_stay_consistent (p : String) (m : Memory)
    (calls : List (ScratchId × Option CacheId)) (s : ScratchId)
    (hc : (m.scratch_data s).stores_object_with_name
      (AD_SD_Functor_Cache.get_name_ad_sd_cache p) = false)
    (hf : (m.scratch_data s).stores_object_with_name
      (AD_SD_Functor_Cache.get_name_ad_sd_cache_flag p) = false) :
    (((AD_SD_Functor_Cache.initialize_all p m calls).scratch_data s).stores_object_with_name
          (AD_SD_Functor_Cache.get_name_ad_sd_cache_flag p) = true ↔
        ((AD_SD_Functor_Cache.initialize_all p m calls).scratch_data s).stores_object_with_name
          (AD_SD_Functor_Cache.get_name_ad_sd_cache p) = true) ∧
      (∀ name : String,
        AD_SD_Functor_Cache.get_cache p (AD_SD_Functor_Cache.initialize_all p m calls) s ≠
          .error (Exc.ExcNameNotFound name)) ∧
      ∃ r : StorageRef,
        AD_SD_Functor_Cache.get_cache p (AD_SD_Functor_Cache.initialize_all p m calls) s =
          .ok r := by
  have h0 : AD_SD_Functor_Cache.names_consistent p (m.scratch_data s) := by
    left
    constructor
    · simpa [GeneralDataStorage.stores_object_with_name] using hc
    · simpa [GeneralDataStorage.stores_object_with_name] using hf
  have hinv := initialize_all_keeps_names_consistent p calls m s h0
  have hget : ∃ r : StorageRef,
      AD_SD_Functor_Cache.get_cache p (AD_SD_Functor_Cache.initialize_all p m calls) s =
        .ok r := by
    rcases hinv with ⟨_, hn⟩ | ⟨c0, h1, h2⟩
    · refine ⟨.of_scratch_data s, ?_⟩
      simp [AD_SD_Functor_Cache.get_cache, AD_SD_Functor_Cache.has_user_cache,
        GeneralDataStorage.stores_object_with_name, hn]
    · exact ⟨_, get_cache_of_entries p _ s _ _ h1 h2⟩
  refine ⟨?_, ?_, hget⟩
  · rcases hinv with ⟨hn1, hn2⟩ | ⟨c0, h1, h2⟩
    · simp [GeneralDataStorage.stores_object_with_name, hn1, hn2]
    · simp [GeneralDataStorage.stores_object_with_name, h1, h2]
  · intro name hname
    obtain ⟨r, hr⟩ := hget
    rw [hr] at hname
    cases hname

/-- Witness for C29: on the sample memory, a registration, a refused second
registration, a call with `nullptr` and a registration on another scratch data
leave scratch data `0` with a cache that can be read. -/
theorem cache_names_stay_consistent_witness :
    ∃ r : StorageRef,
      AD_SD_Functor_Cache.get_cache sampleStem
        (AD_SD_Functor_Cache.initialize_all sampleStem sampleMemory
          [(0, some 0), (0, some 1), (0, none), (1, some 1)]) 0 = .ok r :=
  (cache_names_stay_consistent sampleStem sampleMemory
    [(0, some 0), (0, some 1), (0, none), (1, some 1)] 0 rfl rfl).2.2

end WeakForms
